import Mathlib

/-!
Verification of the kops task-reconciliation engine clients: a shallow
embedding in Lean 4 of the task types and lifecycle operations
(Find / CheckChanges / Render / Normalize) of the Hetzner LoadBalancer,
the OpenStack ServerGroup, the AWS AutoscalingGroup and the AWS
ClassicLoadBalancer, together with theorems about the validation,
lookup and rendering behaviour of those operations.

Go conventions are embedded as follows: a Go pointer field is an
`Option`; a Go `error` result is an `Option GoError` (`none` is the nil
error); a Go multi-value return is a product; a Go slice is a `List`;
a Go map is an association `List`; cloud listings consumed by `Find`
are passed in as explicit `List` arguments; cloud mutations performed
by `Render` are accumulated in an explicit call log.
-/

namespace Kops

/-- Embedding of `fi.StringValue`: dereference an optional string, with `""` for nil. -/
def StringValue : Option String → String
  | some s => s
  | none => ""

/-- Embedding of `fi.Int32Value`: dereference an optional integer, with `0` for nil. -/
def Int32Value : Option Int → Int
  | some v => v
  | none => 0

/-- Embedding of `fi.BoolValue`: dereference an optional bool, with `false` for nil. -/
def BoolValue : Option Bool → Bool
  | some b => b
  | none => false

/-- Embedding of the Go `error` values that appear in the embedded code: the
typed validation errors of the fi error taxonomy (`RequiredField`,
`CannotChangeField`, `TryAgainLater`), AWS API errors carrying a code and a
message (`awserr.Error`), and plain errors built with `fmt.Errorf`. -/
inductive GoError where
  | requiredField (field : String)
  | cannotChangeField (field : String)
  | tryAgainLater (message : String)
  | awsApi (code message : String)
  | plain (message : String)
deriving DecidableEq, Repr

/-- Render the message of a `GoError`, as Go's `err.Error()` would. -/
def GoError.msg : GoError → String
  | .requiredField f => "Field is required: " ++ f
  | .cannotChangeField f => "Field cannot be changed: " ++ f
  | .tryAgainLater m => m
  | .awsApi code message => code ++ ": " ++ message
  | .plain m => m

/-- Embedding of Go `strings.Contains` on element lists: `listHasInfix hay needle`
is true when `needle` occurs contiguously inside `hay`. -/
def listHasInfix {α : Type} [DecidableEq α] (needle : List α) : List α → Bool
  | [] => needle.isEmpty
  | a :: t => needle.isPrefixOf (a :: t) || listHasInfix needle t

/-- Embedding of Go `strings.Contains`. -/
def goStringsContains (s sub : String) : Bool :=
  listHasInfix sub.data s.data

theorem listHasInfix_iff {α : Type} [DecidableEq α] (needle hay : List α) :
    listHasInfix needle hay = true ↔ needle <:+: hay := by
  induction hay with
  | nil =>
    simp [listHasInfix, List.isEmpty_iff]
  | cons a t ih =>
    simp only [listHasInfix, Bool.or_eq_true, ih, List.isPrefixOf_iff_prefix]
    constructor
    · rintro (h | h)
      · exact h.isInfix
      · exact List.infix_cons h
    · intro h
      rcases List.infix_cons_iff.mp h with h | h
      · exact Or.inl h
      · exact Or.inr h

end Kops

namespace Kops.hetznertasks

/-- Embedding of `hetznertasks.LoadBalancerService` (loadbalancer.go). -/
structure LoadBalancerService where
  Protocol : String
  ListenerPort : Option Int
  DestinationPort : Option Int
deriving DecidableEq, Repr

/-- Embedding of the `hetznertasks.LoadBalancer` task (loadbalancer.go).
`Type` is a Lean keyword, so the Go field `Type` is embedded as `Type'`;
the Go `*Network` task reference is embedded as the referenced network id. -/
structure LoadBalancer where
  Name : Option String
  Lifecycle : String
  Network : Option Int
  ID : Option Int
  Location : String
  Type' : String
  Services : List LoadBalancerService
  Target : String
  Labels : List (String × String)
deriving DecidableEq, Repr

/-- Embedding of `hetznertasks.LoadBalancer.CheckChanges` (loadbalancer.go lines 136-174),
including the source's literal field names in the returned errors. -/
def LoadBalancer.checkChanges (a : Option LoadBalancer) (e changes : LoadBalancer) :
    Option GoError :=
  match a with
  | some a' =>
    if changes.Name ≠ none then some (.cannotChangeField "Name")
    else if changes.ID ≠ none then some (.cannotChangeField "ID")
    else if changes.Location ≠ "" then some (.cannotChangeField "Location")
    else if changes.Type' ≠ "" then some (.cannotChangeField "Type")
    else if changes.Services.length > 0 ∧ a'.Services.length > 0 then
      some (.cannotChangeField "Subnets")
    else if changes.Target ≠ "" ∧ a'.Target ≠ "" then some (.cannotChangeField "Target")
    else none
  | none =>
    if e.Name = none then some (.requiredField "Name")
    else if e.Location = "" then some (.requiredField "Location")
    else if e.Type' = "" then some (.requiredField "Type")
    else if e.Services.length = 0 then some (.requiredField "Services")
    else if e.Target = "" then some (.requiredField "Target")
    else none

/-- Shape of a load balancer returned by the Hetzner cloud API
(`hcloud.LoadBalancer`), restricted to the fields `Find` reads. -/
structure HCloudTarget where
  IsLabelSelector : Bool
  Selector : Option String
deriving DecidableEq, Repr

/-- Shape of a load balancer listed by the Hetzner cloud client. -/
structure HCloudLoadBalancer where
  Name : String
  ID : Int
  Location : Option String
  LoadBalancerType : Option String
  Services : List (String × Int × Int)
  Targets : List HCloudTarget
  Labels : List (String × String)
deriving DecidableEq, Repr

/-- Loop body of `hetznertasks.LoadBalancer.Find`: the first listed load
balancer whose name equals the task's name (the source returns inside the
range loop on the first match). -/
def findFirstByName (name : String) : List HCloudLoadBalancer → Option HCloudLoadBalancer
  | [] => none
  | lb :: rest => if lb.Name = name then some lb else findFirstByName name rest

/-- Embedding of `hetznertasks.LoadBalancer.Find` (loadbalancer.go lines 80-130).
The cloud listing (`client.All`) is passed in as `loadbalancers`. Returns the
observed task, the error, and the (possibly mutated) desired task: on a match
the source writes the observed ID back into the desired task (`v.ID = matches.ID`). -/
def LoadBalancer.find (loadbalancers : List HCloudLoadBalancer) (v : LoadBalancer) :
    Option LoadBalancer × Option GoError × LoadBalancer :=
  match findFirstByName (StringValue v.Name) loadbalancers with
  | none => (none, none, v)
  | some lb =>
    let found : LoadBalancer :=
      { Name := some lb.Name
        Lifecycle := v.Lifecycle
        Network := v.Network
        ID := some lb.ID
        Location := StringValue lb.Location
        Type' := StringValue lb.LoadBalancerType
        Services := lb.Services.map fun s =>
          { Protocol := s.1, ListenerPort := some s.2.1, DestinationPort := some s.2.2 }
        Target := lb.Targets.foldl
          (fun acc t =>
            if t.IsLabelSelector ∧ t.Selector ≠ none then StringValue t.Selector else acc) ""
        Labels := lb.Labels }
    (some found, none, { v with ID := some lb.ID })

end Kops.hetznertasks

namespace Kops.openstacktasks

open Kops

/-- Embedding of the `openstacktasks.ServerGroup` task (unnamed/part_002 lines 32-50).
The `sync.Mutex` is an internal synchronization primitive with no algorithmic
content and is omitted; `members` and `gotMemberList` are the internal cache of
member instance names and the finalization flag. -/
structure ServerGroup where
  ID : Option String
  Name : Option String
  ClusterName : Option String
  IGName : Option String
  Policies : List String
  MaxSize : Option Int
  Lifecycle : String
  members : List String
  gotMemberList : Bool
deriving DecidableEq, Repr

/-- Embedding of `openstacktasks.ServerGroup.CheckChanges` (unnamed/part_002 lines 109-123). -/
def ServerGroup.checkChanges (a : Option ServerGroup) (e changes : ServerGroup) :
    Option GoError :=
  match a with
  | none => if e.Name = none then some (.requiredField "Name") else none
  | some _ =>
    if changes.ID ≠ none then some (.cannotChangeField "ID")
    else if changes.Name ≠ none then some (.cannotChangeField "Name")
    else none

/-- Shape of a server group listed by the OpenStack compute API
(`servergroups.ServerGroup`), restricted to the fields `Find` reads. -/
structure OSServerGroup where
  Name : String
  ID : String
  Policies : List String
  Members : List String
deriving DecidableEq, Repr

/-- Build the observed `ServerGroup` from a listed cloud server group, as the
loop body of `ServerGroup.Find` does (unnamed/part_002 lines 79-88). -/
def ServerGroup.fromListed (s : ServerGroup) (g : OSServerGroup) : ServerGroup :=
  { Name := some g.Name
    ClusterName := s.ClusterName
    IGName := s.IGName
    ID := some g.ID
    Lifecycle := s.Lifecycle
    Policies := g.Policies
    MaxSize := some (g.Members.length : Int)
    members := g.Members
    gotMemberList := false }

/-- Loop of `ServerGroup.Find` (unnamed/part_002 lines 74-90): scan the listed
server groups for ones matching the desired name, failing on a second match. -/
def serverGroupFindLoop (s : ServerGroup) (name : String) :
    List OSServerGroup → Option ServerGroup → Except GoError (Option ServerGroup)
  | [], actual => .ok actual
  | g :: rest, actual =>
    if g.Name = name then
      match actual with
      | some _ => .error (.plain ("Found multiple server groups with name " ++ name))
      | none => serverGroupFindLoop s name rest (some (s.fromListed g))
    else serverGroupFindLoop s name rest actual

/-- Embedding of `openstacktasks.ServerGroup.Find` (unnamed/part_002 lines 58-103).
The cloud listing is passed in as `serverGroups`. Returns the observed task, the
error, and the (possibly mutated) desired task: on a match the source caps
`s.MaxSize` to the observed size and writes back `s.ID` and `s.members`. -/
def ServerGroup.find (serverGroups : List OSServerGroup) (s : ServerGroup) :
    Option ServerGroup × Option GoError × ServerGroup :=
  match s.Name with
  | none => (none, none, s)
  | some name =>
    match serverGroupFindLoop s name serverGroups none with
    | .error e => (none, some e, s)
    | .ok none => (none, none, s)
    | .ok (some actual) =>
      let s := if Int32Value actual.MaxSize < Int32Value s.MaxSize then
        { s with MaxSize := actual.MaxSize } else s
      (some actual, none, { s with ID := actual.ID, members := actual.members })

/-- Embedding of `openstacktasks.ServerGroup.AddNewMember` (unnamed/part_002
lines 193-202): `klog.Fatalf` aborts the process when the member list has
already been returned, embedded as `none`; otherwise the member is appended. -/
def ServerGroup.addNewMember (s : ServerGroup) (memberID : String) : Option ServerGroup :=
  if s.gotMemberList then none
  else some { s with members := s.members ++ [memberID] }

/-- Embedding of `openstacktasks.ServerGroup.GetMembers` (unnamed/part_002
lines 207-213): returns the member ids and sets the finalization flag. -/
def ServerGroup.getMembers (s : ServerGroup) : List String × ServerGroup :=
  (s.members, { s with gotMemberList := true })

/-- An interleaving of `AddNewMember` and `GetMembers` calls on a `ServerGroup`. -/
inductive MemberOp where
  | add (memberID : String)
  | getList
deriving DecidableEq, Repr

/-- Run a sequence of member operations; `none` means the program aborted in
`AddNewMember` via `klog.Fatalf`. -/
def runMemberOps : List MemberOp → ServerGroup → Option ServerGroup
  | [], s => some s
  | .add m :: rest, s =>
    match s.addNewMember m with
    | none => none
    | some s' => runMemberOps rest s'
  | .getList :: rest, s => runMemberOps rest (s.getMembers).2

end Kops.openstacktasks

namespace Kops.awstasks

open Kops

/-- Embedding of the `awstasks.AutoscalingGroup` task
(upup/pkg/fi/cloudup/awstasks/autoscalinggroup.go), restricted to the fields
read by `CheckChanges`, `normalize` and the creation-path error handling of
`RenderAWS`. -/
structure AutoscalingGroup where
  Name : Option String
  Lifecycle : String
  MinSize : Option Int
  MaxSize : Option Int
  Metrics : List String
  Granularity : Option String
deriving DecidableEq, Repr

/-- Embedding of `awstasks.AutoscalingGroup.CheckChanges`
(autoscalinggroup.go lines 317-326): the required-name check is performed
only when an observed group exists (`a != nil`). -/
def AutoscalingGroup.checkChanges (a : Option AutoscalingGroup)
    (ex changes : AutoscalingGroup) : Option GoError :=
  match a with
  | some _ => if ex.Name = none then some (.requiredField "Name") else none
  | none => none

/-- Embedding of Go `sort.Strings`: sort a string slice in increasing order. -/
def sortStrings (l : List String) : List String :=
  l.insertionSort (fun a b => a ≤ b)

/-- Embedding of `awstasks.AutoscalingGroup.normalize`
(autoscalinggroup.go lines 300-304): sorts the `Metrics` slice. -/
def AutoscalingGroup.normalize (e : AutoscalingGroup) : AutoscalingGroup :=
  { e with Metrics := sortStrings e.Metrics }

/-- Shape of a group listed by the AWS autoscaling API (`autoscaling.Group`),
restricted to the fields `findAutoscalingGroup` reads: `Status` is non-nil
exactly when the group is being deleted. -/
structure AwsAsg where
  AutoScalingGroupName : String
  Status : Option String
deriving DecidableEq, Repr

/-- Embedding of `awstasks.findAutoscalingGroup` (autoscalinggroup.go lines
262-298). The page listing is passed in as `groups`; groups with a non-nil
`Status` ("Delete in progress") are skipped, and name mismatches are dropped
with a warning. -/
def findAutoscalingGroup (groups : List AwsAsg) (name : String) :
    Option AwsAsg × Option GoError :=
  let found := groups.filter fun g => g.Status = none ∧ g.AutoScalingGroupName = name
  match found with
  | [] => (none, none)
  | [g] => (some g, none)
  | _ => (none, some (.plain ("found multiple AutoscalingGroups with name: " ++ name)))

/-- Embedding of `awsup.AWSErrorCode`. Modelled from the spec: the helper is
not under src/; per the spec's error taxonomy it extracts the AWS error code
of an AWS API error, and the empty string otherwise. -/
def AWSErrorCode : GoError → String
  | .awsApi code _ => code
  | _ => ""

/-- Embedding of `awsup.AWSErrorMessage`. Modelled from the spec: the helper is
not under src/; it extracts the message of an AWS API error, and the rendered
error text otherwise. -/
def AWSErrorMessage : GoError → String
  | .awsApi _ message => message
  | e => e.msg

/-- Embedding of the `CreateAutoScalingGroup` error handling on the creation
path of `awstasks.AutoscalingGroup.RenderAWS` (autoscalinggroup.go lines
398-407): `callErr` is the outcome of the cloud call (`none` is success, after
which rendering proceeds with no error from this step). -/
def AutoscalingGroup.renderAWSCreateCallResult (callErr : Option GoError) : Option GoError :=
  match callErr with
  | none => none
  | some err =>
    let code := AWSErrorCode err
    let message := AWSErrorMessage err
    if code = "ValidationError" ∧ goStringsContains message "Invalid IAM Instance Profile name" then
      some (.tryAgainLater "waiting for the IAM Instance Profile to be propagated")
    else
      some (.plain ("error creating AutoScalingGroup: " ++ message))

/-- Does an operation outcome carry the retryable `TryAgainLater` signal? -/
def isTryAgainLater : Option GoError → Bool
  | some (.tryAgainLater _) => true
  | _ => false

end Kops.awstasks

namespace Kops.awstasks

/-- Embedding of the `awstasks.Subnet` task as referenced by
`ClassicLoadBalancer`. Modelled from the spec: the Subnet task definition is
not under src/; per the spec a task holds declared attributes (here the
provider-assigned `ID` used as the comparison key, and the logical `Name`). -/
structure Subnet where
  ID : Option String
  Name : Option String
deriving DecidableEq, Repr

/-- Embedding of the `awstasks.SecurityGroup` task as referenced by
`ClassicLoadBalancer`. Modelled from the spec: the SecurityGroup task
definition is not under src/; as for `Subnet` it holds the provider-assigned
`ID` used as the comparison key and the logical `Name`. -/
structure SecurityGroup where
  ID : Option String
  Name : Option String
deriving DecidableEq, Repr

/-- Embedding of `awstasks.ClassicLoadBalancerListener` (unnamed/part_003 lines 84-87). -/
structure ClassicLoadBalancerListener where
  InstancePort : Int
  SSLCertificateID : String
deriving DecidableEq, Repr

/-- Embedding of `awstasks.ClassicLoadBalancerHealthCheck`. -/
structure ClassicLoadBalancerHealthCheck where
  Target : Option String
  HealthyThreshold : Option Int
  UnhealthyThreshold : Option Int
  Interval : Option Int
  Timeout : Option Int
deriving DecidableEq, Repr

/-- Embedding of `awstasks.ClassicLoadBalancerAccessLog`. -/
structure ClassicLoadBalancerAccessLog where
  EmitInterval : Option Int
  Enabled : Option Bool
  S3BucketName : Option String
  S3BucketPrefix : Option String
deriving DecidableEq, Repr

/-- Embedding of `awstasks.ClassicLoadBalancerConnectionDraining`. -/
structure ClassicLoadBalancerConnectionDraining where
  Enabled : Option Bool
  Timeout : Option Int
deriving DecidableEq, Repr

/-- Embedding of `awstasks.ClassicLoadBalancerConnectionSettings`. -/
structure ClassicLoadBalancerConnectionSettings where
  IdleTimeout : Option Int
deriving DecidableEq, Repr

/-- Embedding of `awstasks.ClassicLoadBalancerCrossZoneLoadBalancing`. -/
structure ClassicLoadBalancerCrossZoneLoadBalancing where
  Enabled : Option Bool
deriving DecidableEq, Repr

/-- Embedding of the `awstasks.ClassicLoadBalancer` task (unnamed/part_003
lines 43-76). The Go `Listeners` map keyed by load-balancer port is embedded
as an association list. -/
structure ClassicLoadBalancer where
  Name : Option String
  Lifecycle : String
  LoadBalancerName : Option String
  DNSName : Option String
  HostedZoneId : Option String
  Subnets : List Subnet
  SecurityGroups : List SecurityGroup
  Listeners : List (String × ClassicLoadBalancerListener)
  Scheme : Option String
  HealthCheck : Option ClassicLoadBalancerHealthCheck
  AccessLog : Option ClassicLoadBalancerAccessLog
  ConnectionDraining : Option ClassicLoadBalancerConnectionDraining
  ConnectionSettings : Option ClassicLoadBalancerConnectionSettings
  CrossZoneLoadBalancing : Option ClassicLoadBalancerCrossZoneLoadBalancing
  SSLCertificateID : String
  Tags : List (String × String)
  ForAPIServer : Bool
  Shared : Option Bool
deriving DecidableEq, Repr

/-- Comparison key of `awstasks.OrderSubnetsById`. Modelled from the spec: the
sort adapter is not under src/; per the spec multi-valued set attributes are
"sorted by key", the key being the subnet `ID`. -/
def subnetKey (s : Subnet) : String := StringValue s.ID

/-- Comparison key of `awstasks.OrderSecurityGroupsById`. Modelled from the
spec, as for `subnetKey`. -/
def securityGroupKey (s : SecurityGroup) : String := StringValue s.ID

/-- Key order on subnets used by `sort.Stable(OrderSubnetsById(...))`. -/
def subnetLe (a b : Subnet) : Prop := subnetKey a ≤ subnetKey b

/-- Key order on security groups used by `sort.Stable(OrderSecurityGroupsById(...))`. -/
def securityGroupLe (a b : SecurityGroup) : Prop := securityGroupKey a ≤ securityGroupKey b

instance : DecidableRel subnetLe := fun a b =>
  inferInstanceAs (Decidable (subnetKey a ≤ subnetKey b))

instance : DecidableRel securityGroupLe := fun a b =>
  inferInstanceAs (Decidable (securityGroupKey a ≤ securityGroupKey b))

instance : IsTotal Subnet subnetLe := ⟨fun a b => le_total (subnetKey a) (subnetKey b)⟩

instance : IsTrans Subnet subnetLe := ⟨fun _ _ _ hab hbc => le_trans hab hbc⟩

instance : IsTotal SecurityGroup securityGroupLe :=
  ⟨fun a b => le_total (securityGroupKey a) (securityGroupKey b)⟩

instance : IsTrans SecurityGroup securityGroupLe := ⟨fun _ _ _ hab hbc => le_trans hab hbc⟩

/-- Embedding of Go `sort.Stable(OrderSubnetsById(...))`: a stable sort by the
subnet id key. Insertion sort is stable, so it computes the same list as any
stable sorting algorithm for this key order. -/
def sortSubnetsById (l : List Subnet) : List Subnet :=
  l.insertionSort subnetLe

/-- Embedding of Go `sort.Stable(OrderSecurityGroupsById(...))`. -/
def sortSecurityGroupsById (l : List SecurityGroup) : List SecurityGroup :=
  l.insertionSort securityGroupLe

/-- Embedding of `awstasks.ClassicLoadBalancer.Normalize` (unnamed/part_003
lines 381-385): stable-sorts the `Subnets` and `SecurityGroups` slices by id. -/
def ClassicLoadBalancer.Normalize (e : ClassicLoadBalancer) : ClassicLoadBalancer :=
  { e with
    Subnets := sortSubnetsById e.Subnets
    SecurityGroups := sortSecurityGroupsById e.SecurityGroups }

/-- Embedding of `awstasks.ClassicLoadBalancer.ShouldCreate` (unnamed/part_003
lines 374-379). -/
def ClassicLoadBalancer.shouldCreate (a : Option ClassicLoadBalancer)
    (e changes : ClassicLoadBalancer) : Bool × Option GoError :=
  if BoolValue e.Shared then (false, none) else (true, none)

/-- Tail of `awstasks.ClassicLoadBalancer.CheckChanges`: the
`ConnectionDraining` and `CrossZoneLoadBalancing` required-field checks
(unnamed/part_003 lines 413-423). -/
def ClassicLoadBalancer.checkChangesDraining (e : ClassicLoadBalancer) : Option GoError :=
  match e.ConnectionDraining with
  | some cd =>
    if cd.Enabled = none then some (.requiredField "ConnectionDraining.Enabled")
    else match e.CrossZoneLoadBalancing with
      | some cz => if cz.Enabled = none then
          some (.requiredField "CrossZoneLoadBalancing.Enabled") else none
      | none => none
  | none =>
    match e.CrossZoneLoadBalancing with
    | some cz => if cz.Enabled = none then
        some (.requiredField "CrossZoneLoadBalancing.Enabled") else none
    | none => none

/-- Embedding of `awstasks.ClassicLoadBalancer.CheckChanges` (unnamed/part_003
lines 387-427). -/
def ClassicLoadBalancer.checkChanges (a : Option ClassicLoadBalancer)
    (e changes : ClassicLoadBalancer) : Option GoError :=
  match a with
  | some _ => none
  | none =>
    if StringValue e.Name = "" then some (.requiredField "Name")
    else if ¬BoolValue e.Shared ∧ e.SecurityGroups.length = 0 then
      some (.requiredField "SecurityGroups")
    else if ¬BoolValue e.Shared ∧ e.Subnets.length = 0 then
      some (.requiredField "Subnets")
    else match e.AccessLog with
      | some al =>
        if al.Enabled = none then some (.requiredField "Acceslog.Enabled")
        else if al.Enabled = some true ∧ al.S3BucketName = none then
          some (.requiredField "Acceslog.S3Bucket")
        else ClassicLoadBalancer.checkChangesDraining e
      | none => ClassicLoadBalancer.checkChangesDraining e

/-- Shape of a load balancer description returned by the AWS ELB API
(`elb.LoadBalancerDescription`), restricted to the fields the embedded code reads. -/
structure ElbDescription where
  LoadBalancerName : String
  DNSName : String
  CanonicalHostedZoneNameID : String
deriving DecidableEq, Repr

/-- Embedding of `awstasks.describeLoadBalancers` (unnamed/part_003 lines
186-202): the page listing outcome is passed in as `pages`; a listing error is
wrapped into a plain error, losing its AWS error type. -/
def describeLoadBalancers (pages : Except GoError (List ElbDescription))
    (keep : ElbDescription → Bool) : Except GoError (List ElbDescription) :=
  match pages with
  | .error err => .error (.plain ("error listing ELBs: " ++ err.msg))
  | .ok lbs => .ok (lbs.filter keep)

/-- Embedding of `awstasks.findLoadBalancerByLoadBalancerName` (unnamed/part_003
lines 113-146). Note that the source's `LoadBalancerNotFound` check matches on
an `awserr.Error`, but `describeLoadBalancers` has already wrapped the listing
error into a plain error, so the branch is preserved here yet unreachable. -/
def findLoadBalancerByLoadBalancerName (pages : Except GoError (List ElbDescription))
    (loadBalancerName : String) : Option ElbDescription × Option GoError :=
  match describeLoadBalancers pages (fun lb => lb.LoadBalancerName = loadBalancerName) with
  | .error err =>
    match err with
    | .awsApi code _ =>
      if code = "LoadBalancerNotFound" then (none, none)
      else (none, some (.plain ("error listing ELBs: " ++ err.msg)))
    | _ => (none, some (.plain ("error listing ELBs: " ++ err.msg)))
  | .ok found =>
    match found with
    | [] => (none, none)
    | [lb] => (some lb, none)
    | _ => (none, some (.plain ("Found multiple ELBs with name " ++ loadBalancerName)))

end Kops.awstasks

namespace Kops.awstasks

/-- Embedding of an `elb.Listener` request value as built by
`ClassicLoadBalancerListener.mapToAWS`. -/
structure ElbListener where
  LoadBalancerPort : Int
  InstancePort : Int
  Protocol : String
  InstanceProtocol : String
  SSLCertificateId : Option String
deriving DecidableEq, Repr

/-- Embedding of `awstasks.ClassicLoadBalancerListener.mapToAWS`
(unnamed/part_003 lines 89-105). -/
def ClassicLoadBalancerListener.mapToAWS (e : ClassicLoadBalancerListener)
    (loadBalancerPort : Int) : ElbListener :=
  if e.SSLCertificateID ≠ "" then
    { LoadBalancerPort := loadBalancerPort
      InstancePort := e.InstancePort
      Protocol := "SSL"
      InstanceProtocol := "SSL"
      SSLCertificateId := some e.SSLCertificateID }
  else
    { LoadBalancerPort := loadBalancerPort
      InstancePort := e.InstancePort
      Protocol := "TCP"
      InstanceProtocol := "TCP"
      SSLCertificateId := none }

/-- Build the `elb.Listener` list from the task's listener map, parsing each
map key as the load balancer port (`strconv.ParseInt`), as the listener loops
of `RenderAWS` do. -/
def buildAwsListeners : List (String × ClassicLoadBalancerListener) →
    Except GoError (List ElbListener)
  | [] => .ok []
  | (port, l) :: rest =>
    match port.toInt? with
    | none => .error (.plain ("error parsing load balancer listener port: " ++ port))
    | some p =>
      match buildAwsListeners rest with
      | .error err => .error err
      | .ok ls => .ok (l.mapToAWS p :: ls)

/-- Embedding of `slice.GetUniqueStrings(main, extra)`. Modelled from the spec:
the helper is not under src/; at its two call sites it computes the ids present
in `extra` but not in `main` (the subnets to detach or attach). -/
def getUniqueStrings (main extra : List String) : List String :=
  extra.filter fun s => ¬ main.contains s

/-- One mutating AWS ELB API call issued by `ClassicLoadBalancer.RenderAWS`. -/
inductive AwsElbCall where
  | createLoadBalancer (name : String) (scheme : Option String)
      (subnets securityGroups : List (Option String)) (listeners : List ElbListener)
  | detachLoadBalancerFromSubnets (name : String) (subnets : List String)
  | attachLoadBalancerToSubnets (name : String) (subnets : List String)
  | applySecurityGroupsToLoadBalancer (name : String) (securityGroups : List (Option String))
  | deleteLoadBalancerListeners (name : String) (ports : List Int)
  | createLoadBalancerListeners (name : String) (listeners : List ElbListener)
  | addELBTags (name : String) (tags : List (String × String))
  | removeELBTags (name : String) (tags : List (String × String))
  | configureHealthCheck (name : String) (healthCheck : ClassicLoadBalancerHealthCheck)
  | modifyLoadBalancerAttributes (name : String)
deriving DecidableEq, Repr

/-- Common tail of `ClassicLoadBalancer.RenderAWS` (unnamed/part_003 lines
572-604): tag reconciliation, health-check configuration when the health check
changed, and `modifyLoadBalancerAttributes`. `AddELBTags`/`RemoveELBTags` and
`modifyLoadBalancerAttributes` are not under src/ and are modelled from the
spec as the corresponding reconciliation calls, the latter issued only when an
attribute-level change is present. -/
def renderAWSTail (loadBalancerName : String) (e changes : ClassicLoadBalancer)
    (calls : List AwsElbCall) : List AwsElbCall × Option GoError :=
  let calls := calls ++ [.addELBTags loadBalancerName e.Tags,
    .removeELBTags loadBalancerName e.Tags]
  let calls :=
    match changes.HealthCheck, e.HealthCheck with
    | some _, some hc => calls ++ [.configureHealthCheck loadBalancerName hc]
    | _, _ => calls
  let calls :=
    if changes.AccessLog ≠ none ∨ changes.ConnectionDraining ≠ none ∨
        changes.ConnectionSettings ≠ none ∨ changes.CrossZoneLoadBalancing ≠ none then
      calls ++ [.modifyLoadBalancerAttributes loadBalancerName]
    else calls
  (calls, none)

/-- Update branch of `ClassicLoadBalancer.RenderAWS` (unnamed/part_003 lines
484-570): subnet detach/attach, security-group update and listener
replacement for an observed load balancer. -/
def renderAWSUpdate (requeryPages : Except GoError (List ElbDescription))
    (a' e changes : ClassicLoadBalancer) (calls : List AwsElbCall) :
    List AwsElbCall × Option GoError :=
  let loadBalancerName := StringValue a'.LoadBalancerName
  let calls :=
    if changes.Subnets ≠ [] then
      let expectedSubnets := e.Subnets.map fun s => StringValue s.ID
      let actualSubnets := a'.Subnets.map fun s => StringValue s.ID
      let oldSubnetIDs := getUniqueStrings expectedSubnets actualSubnets
      let calls := if oldSubnetIDs ≠ [] then
        calls ++ [.detachLoadBalancerFromSubnets loadBalancerName oldSubnetIDs] else calls
      let newSubnetIDs := getUniqueStrings actualSubnets expectedSubnets
      if newSubnetIDs ≠ [] then
        calls ++ [.attachLoadBalancerToSubnets loadBalancerName newSubnetIDs] else calls
    else calls
  let calls :=
    if changes.SecurityGroups ≠ [] then
      calls ++ [.applySecurityGroupsToLoadBalancer loadBalancerName
        (e.SecurityGroups.map fun sg => sg.ID)]
    else calls
  if changes.Listeners ≠ [] then
    match findLoadBalancerByLoadBalancerName requeryPages loadBalancerName with
    | (_, some err) =>
      (calls, some (.plain ("error getting load balancer by name: " ++ err.msg)))
    | (elbDescription, none) =>
      let calls :=
        match elbDescription with
        | some _ => calls ++ [.deleteLoadBalancerListeners loadBalancerName [443]]
        | none => calls
      match buildAwsListeners changes.Listeners with
      | .error err => (calls, some err)
      | .ok ls =>
        renderAWSTail loadBalancerName e changes
          (calls ++ [.createLoadBalancerListeners loadBalancerName ls])
  else
    renderAWSTail loadBalancerName e changes calls

/-- Embedding of `awstasks.ClassicLoadBalancer.RenderAWS` (unnamed/part_003
lines 429-605). The issued cloud calls are accumulated in `calls`; the outcome
of the post-create requery (`findLoadBalancerByLoadBalancerName`) is passed in
as `requeryPages`; failures of the mutating calls themselves are outside the
embedding (each would return the wrapped call error). -/
def ClassicLoadBalancer.renderAWS (requeryPages : Except GoError (List ElbDescription))
    (a : Option ClassicLoadBalancer) (e changes : ClassicLoadBalancer)
    (calls : List AwsElbCall) : List AwsElbCall × Option GoError :=
  if BoolValue e.Shared then (calls, none)
  else
    match a with
    | none =>
      match e.LoadBalancerName with
      | none => (calls, some (.requiredField "LoadBalancerName"))
      | some loadBalancerName =>
        match buildAwsListeners e.Listeners with
        | .error err => (calls, some err)
        | .ok awsListeners =>
          let calls := calls ++ [.createLoadBalancer loadBalancerName e.Scheme
            (e.Subnets.map fun s => s.ID) (e.SecurityGroups.map fun sg => sg.ID)
            awsListeners]
          match findLoadBalancerByLoadBalancerName requeryPages loadBalancerName with
          | (_, some err) => (calls, some err)
          | (none, none) =>
            (calls, some (.plain ("Unable to find newly created ELB " ++ loadBalancerName)))
          | (some _, none) => renderAWSTail loadBalancerName e changes calls
    | some a' => renderAWSUpdate requeryPages a' e changes calls

/-- Embedding of a `terraformLoadBalancerListener` block (unnamed/part_003
lines 636-642). -/
structure TerraformListener where
  InstancePort : Int
  InstanceProtocol : String
  LBPort : Int
  LBProtocol : String
  SSLCertificateID : Option String
deriving DecidableEq, Repr

/-- Embedding of a `terraformLoadBalancer` resource block (unnamed/part_003
lines 616-634). Symbolic references to other resources are embedded as link
strings. -/
structure TerraformLoadBalancer where
  LoadBalancerName : String
  Listener : List TerraformListener
  SecurityGroups : List String
  Subnets : List String
  Internal : Option Bool
  HealthCheck : Option ClassicLoadBalancerHealthCheck
  AccessLog : Option ClassicLoadBalancerAccessLog
  ConnectionDraining : Option Bool
  ConnectionDrainingTimeout : Option Int
  CrossZoneLoadBalancing : Option Bool
  IdleTimeout : Option Int
  Tags : List (String × String)
deriving DecidableEq, Repr

/-- Embedding of `Subnet.TerraformLink`. Modelled from the spec: the method is
not under src/; per the spec a document target references other resource
blocks via symbolic links rather than concrete values. -/
def Subnet.terraformLink (s : Subnet) : String :=
  "aws_subnet." ++ StringValue s.Name ++ ".id"

/-- Embedding of `SecurityGroup.TerraformLink`. Modelled from the spec, as for
`Subnet.terraformLink`. -/
def SecurityGroup.terraformLink (s : SecurityGroup) : String :=
  "aws_security_group." ++ StringValue s.Name ++ ".id"

/-- Go map-merge of tag maps: entries of `extra` override entries of `base`
(`tags[k] = v` in a loop over `e.Tags` after `cloud.BuildTags`). -/
def mergeTags (base extra : List (String × String)) : List (String × String) :=
  base.filter (fun kv => ¬ extra.any fun kv' => kv'.1 = kv.1) ++ extra

/-- Build the terraform listener blocks from the task's listener map, parsing
each map key as the load balancer port (unnamed/part_003 lines 681-704). -/
def buildTfListeners : List (String × ClassicLoadBalancerListener) →
    Except GoError (List TerraformListener)
  | [] => .ok []
  | (port, l) :: rest =>
    match port.toInt? with
    | none => .error (.plain ("error parsing load balancer listener port: " ++ port))
    | some p =>
      match buildTfListeners rest with
      | .error err => .error err
      | .ok ls =>
        if l.SSLCertificateID ≠ "" then
          .ok ({ InstancePort := l.InstancePort, InstanceProtocol := "SSL", LBPort := p,
                 LBProtocol := "SSL", SSLCertificateID := some l.SSLCertificateID } :: ls)
        else
          .ok ({ InstancePort := l.InstancePort, InstanceProtocol := "TCP", LBPort := p,
                 LBProtocol := "TCP", SSLCertificateID := none } :: ls)

/-- Embedding of `awstasks.ClassicLoadBalancer.RenderTerraform` (unnamed/part_003
lines 652-745). The emitted resource blocks accumulate in `doc`; the cluster
tag map built by `cloud.BuildTags(e.Name)` (not under src/) is passed in as
`cloudTags`. -/
def ClassicLoadBalancer.renderTerraform (cloudTags : List (String × String))
    (a : Option ClassicLoadBalancer) (e changes : ClassicLoadBalancer)
    (doc : List (String × String × TerraformLoadBalancer)) :
    List (String × String × TerraformLoadBalancer) × Option GoError :=
  if BoolValue e.Shared then (doc, none)
  else
    match e.LoadBalancerName with
    | none => (doc, some (.requiredField "LoadBalancerName"))
    | some loadBalancerName =>
      match buildTfListeners e.Listeners with
      | .error err => (doc, some err)
      | .ok listeners =>
        let tf : TerraformLoadBalancer :=
          { LoadBalancerName := loadBalancerName
            Listener := listeners
            SecurityGroups := sortStrings (e.SecurityGroups.map SecurityGroup.terraformLink)
            Subnets := sortStrings (e.Subnets.map Subnet.terraformLink)
            Internal := if StringValue e.Scheme = "internal" then some true else none
            HealthCheck := e.HealthCheck
            AccessLog :=
              match e.AccessLog with
              | some al => if BoolValue al.Enabled then some al else none
              | none => none
            ConnectionDraining := match e.ConnectionDraining with
              | some cd => cd.Enabled
              | none => none
            ConnectionDrainingTimeout := match e.ConnectionDraining with
              | some cd => cd.Timeout
              | none => none
            CrossZoneLoadBalancing := match e.CrossZoneLoadBalancing with
              | some cz => cz.Enabled
              | none => none
            IdleTimeout := match e.ConnectionSettings with
              | some cs => cs.IdleTimeout
              | none => none
            Tags := mergeTags cloudTags e.Tags }
        (doc ++ [("aws_elb", StringValue e.Name, tf)], none)

/-- Embedding of a `cloudformationClassicLoadBalancerListener` block
(unnamed/part_003 lines 783-788): ports are carried as strings and the
protocols are always TCP. -/
structure CfnListener where
  InstancePort : String
  InstanceProtocol : String
  LoadBalancerPort : String
  Protocol : String
deriving DecidableEq, Repr

/-- Embedding of a `cloudformationClassicLoadBalancer` resource block
(unnamed/part_003 lines 765-781). The `fi.ToString` JSON stringification of
the numeric health-check fields is presentation-level and the values are kept
as integers. -/
structure CfnClassicLoadBalancer where
  LoadBalancerName : String
  Listener : List CfnListener
  SecurityGroups : List String
  Subnets : List String
  Scheme : Option String
  HealthCheck : Option ClassicLoadBalancerHealthCheck
  AccessLog : Option ClassicLoadBalancerAccessLog
  ConnectionDrainingEnabled : Option Bool
  ConnectionDrainingTimeout : Option Int
  IdleTimeout : Option Int
  CrossZoneLoadBalancing : Option Bool
  Tags : List (String × String)
deriving DecidableEq, Repr

/-- Embedding of `Subnet.CloudformationLink`. Modelled from the spec, as for
`Subnet.terraformLink`. -/
def Subnet.cloudformationLink (s : Subnet) : String :=
  "Ref AWSEC2Subnet " ++ StringValue s.Name

/-- Embedding of `SecurityGroup.CloudformationLink`. Modelled from the spec. -/
def SecurityGroup.cloudformationLink (s : SecurityGroup) : String :=
  "Ref AWSEC2SecurityGroup " ++ StringValue s.Name

/-- Embedding of `awstasks.ClassicLoadBalancer.RenderCloudformation`
(unnamed/part_003 lines 807-889). The emitted resource blocks accumulate in
`doc`; the cluster tag map built by `cloud.BuildTags(e.Name)` is passed in as
`cloudTags`. -/
def ClassicLoadBalancer.renderCloudformation (cloudTags : List (String × String))
    (a : Option ClassicLoadBalancer) (e changes : ClassicLoadBalancer)
    (doc : List (String × String × CfnClassicLoadBalancer)) :
    List (String × String × CfnClassicLoadBalancer) × Option GoError :=
  if BoolValue e.Shared then (doc, none)
  else
    match e.LoadBalancerName with
    | none => (doc, some (.requiredField "LoadBalancerName"))
    | some loadBalancerName =>
      let tf : CfnClassicLoadBalancer :=
        { LoadBalancerName := loadBalancerName
          Listener := e.Listeners.map fun pl =>
            { InstancePort := toString pl.2.InstancePort
              InstanceProtocol := "TCP"
              LoadBalancerPort := pl.1
              Protocol := "TCP" }
          SecurityGroups := e.SecurityGroups.map SecurityGroup.cloudformationLink
          Subnets := e.Subnets.map Subnet.cloudformationLink
          Scheme := e.Scheme
          HealthCheck := e.HealthCheck
          AccessLog :=
            match e.AccessLog with
            | some al => if BoolValue al.Enabled then some al else none
            | none => none
          ConnectionDrainingEnabled := match e.ConnectionDraining with
            | some cd => cd.Enabled
            | none => none
          ConnectionDrainingTimeout := match e.ConnectionDraining with
            | some cd => cd.Timeout
            | none => none
          IdleTimeout := match e.ConnectionSettings with
            | some cs => cs.IdleTimeout
            | none => none
          CrossZoneLoadBalancing := match e.CrossZoneLoadBalancing with
            | some cz => cz.Enabled
            | none => none
          Tags := mergeTags cloudTags e.Tags }
      (doc ++ [("AWS::ElasticLoadBalancing::LoadBalancer", StringValue e.Name, tf)], none)

end Kops.awstasks

namespace Kops.fi

open Kops

/-- Modelled from the spec: `fi.BuildChanges` is not under src/ (only its test
`dryruntarget_test.go` is). Per the spec's diff engine, a task is compared
attribute by attribute; the reflection over struct fields is embedded by
representing a task of one kind as its list of (field name, field value)
pairs, aligned positionally as reflection aligns fields of one struct type. -/
def FieldTask : Type := List (String × String)

/-- Modelled from the spec: a Changes value is "shaped like a Task but with
only the fields that differ populated; all other fields carry a sentinel
unchanged marker (not merely a zero value)" — `none` is the unchanged
sentinel. -/
def FieldChanges : Type := List (String × Option String)

/-- Modelled from the spec: `fi.BuildChanges` pairwise compares every declared
attribute of observed vs. desired, marking equal attributes with the unchanged
sentinel and differing attributes with the desired value. -/
def BuildChanges (a e : FieldTask) : FieldChanges :=
  List.zipWith (fun fa fe => (fe.1, if fa.2 = fe.2 then none else some fe.2)) a e

/-- Is every field of a Changes value the unchanged sentinel? -/
def isAllUnchanged (changes : FieldChanges) : Bool :=
  changes.all fun f => f.2 = none

/-- Modelled from the spec: the dry-run/plan target's `Render` is not under
src/. Per the spec it "performs no mutation; instead accumulates a
human-readable report of field-level changes per task": rendering a create
records the task, rendering against an observed task records one report line
per changed field, and no error is returned. -/
def dryRunRender (a : Option FieldTask) (e : FieldTask) (changes : FieldChanges)
    (report : List String) : List String × Option GoError :=
  match a with
  | none => (report ++ ["create " ++ String.intercalate ", " (e.map fun f => f.1)], none)
  | some _ =>
    (report ++ changes.filterMap (fun f => f.2.map fun v => f.1 ++ " -> " ++ v), none)

/-- Modelled from the spec: the validation step of `fi.DefaultDeltaRunMethod`
is not under src/. Per the spec, `CheckChanges` validates the delta "before
any mutation" and a validation error fails the task without dispatching
`Render`; the target state `st` is returned untouched in that case. -/
def deltaRunDispatch {σ : Type} (check : Option GoError)
    (render : σ → σ × Option GoError) (st : σ) : σ × Option GoError :=
  match check with
  | some err => (st, some err)
  | none => render st

theorem buildChanges_self_all_unchanged (t : FieldTask) :
    BuildChanges t t = t.map fun f => (f.1, (none : Option String)) := by
  induction t with
  | nil => rfl
  | cons f rest ih =>
    simp [BuildChanges, List.zipWith] at ih ⊢

theorem isAllUnchanged_buildChanges_self (t : FieldTask) :
    isAllUnchanged (BuildChanges t t) = true := by
  rw [buildChanges_self_all_unchanged]
  induction t with
  | nil => rfl
  | cons f rest ih => simpa [isAllUnchanged] using ih

theorem dryRunRender_all_unchanged_noop (a e : FieldTask) (changes : FieldChanges)
    (report : List String) (h : isAllUnchanged changes = true) :
    dryRunRender (some a) e changes report = (report, none) := by
  simp only [dryRunRender]
  have hnil : changes.filterMap (fun f => f.2.map fun v => f.1 ++ " -> " ++ v) = [] := by
    induction changes with
    | nil => rfl
    | cons f rest ih =>
      simp only [isAllUnchanged, List.all_cons, Bool.and_eq_true, decide_eq_true_eq] at h
      rw [List.filterMap_cons, h.1]
      exact ih (by simpa [isAllUnchanged] using h.2)
  rw [hnil, List.append_nil]

end Kops.fi

namespace Kops

/-- C1: diffing a Task against an identical copy of itself yields an
all-unchanged Changes value, and dispatching the dry-run target's Render on
such an all-unchanged Changes appends no entries to the report document and
returns no error. -/
theorem diff_self_unchanged_and_dryrun_render_noop :
    (∀ t : fi.FieldTask, fi.isAllUnchanged (fi.BuildChanges t t) = true) ∧
    (∀ (a e : fi.FieldTask) (changes : fi.FieldChanges) (report : List String),
      fi.isAllUnchanged changes = true →
      fi.dryRunRender (some a) e changes report = (report, none)) :=
  ⟨fi.isAllUnchanged_buildChanges_self,
   fun a e changes report h => fi.dryRunRender_all_unchanged_noop a e changes report h⟩

/-- Witness for C1 at the concrete task of `Test_DryrunTarget_PrintReport`
(Name "TestName", lifecycle Sync, tag key=value). -/
theorem diff_self_unchanged_and_dryrun_render_noop_witness :
    fi.isAllUnchanged (fi.BuildChanges
      [("Name", "TestName"), ("Lifecycle", "Sync"), ("Tags", "key=value")]
      [("Name", "TestName"), ("Lifecycle", "Sync"), ("Tags", "key=value")]) = true ∧
    fi.dryRunRender
      (some [("Name", "TestName"), ("Lifecycle", "Sync"), ("Tags", "key=value")])
      [("Name", "TestName"), ("Lifecycle", "Sync"), ("Tags", "key=value")]
      [("Name", none), ("Lifecycle", none), ("Tags", none)] [] = ([], none) :=
  ⟨diff_self_unchanged_and_dryrun_render_noop.1 _,
   diff_self_unchanged_and_dryrun_render_noop.2 _ _ _ [] (by decide)⟩

/-- C2 counterexample: for the Hetzner LoadBalancer, an observed task together
with a Changes value whose ID is non-nil does not by itself yield
`CannotChangeField("ID")` — when the Name field also changed, the Name check
runs first and `CannotChangeField("Name")` is returned instead. -/
theorem hetzner_id_change_masked_by_name_change :
    hetznertasks.LoadBalancer.checkChanges
      (some { Name := some "api", Lifecycle := "Sync", Network := some 7, ID := some 1,
              Location := "fsn1", Type' := "lb11", Services := [], Target := "role=node",
              Labels := [] })
      { Name := some "api2", Lifecycle := "Sync", Network := some 7, ID := some 2,
        Location := "fsn1", Type' := "lb11", Services := [], Target := "role=node",
        Labels := [] }
      { Name := some "api2", Lifecycle := "", Network := none, ID := some 2,
        Location := "", Type' := "", Services := [], Target := "", Labels := [] } =
      some (GoError.cannotChangeField "Name") ∧
    hetznertasks.LoadBalancer.checkChanges
      (some { Name := some "api", Lifecycle := "Sync", Network := some 7, ID := some 1,
              Location := "fsn1", Type' := "lb11", Services := [], Target := "role=node",
              Labels := [] })
      { Name := some "api2", Lifecycle := "Sync", Network := some 7, ID := some 2,
        Location := "fsn1", Type' := "lb11", Services := [], Target := "role=node",
        Labels := [] }
      { Name := some "api2", Lifecycle := "", Network := none, ID := some 2,
        Location := "", Type' := "", Services := [], Target := "", Labels := [] } ≠
      some (GoError.cannotChangeField "ID") := by
  constructor <;> decide

/-- C2 (amended): with an observed task present, a non-nil ID delta is
rejected with `CannotChangeField("ID")` — unconditionally for
`ServerGroup.CheckChanges`, whose ID check runs first, and for the Hetzner
`LoadBalancer.CheckChanges` provided the Name field is unchanged (the spec's
scenario, where only the ID differs); and a CheckChanges validation error
fails the task before `Render` is dispatched, leaving the target untouched. -/
theorem immutable_id_change_rejected :
    (∀ (a e changes : openstacktasks.ServerGroup), changes.ID ≠ none →
      openstacktasks.ServerGroup.checkChanges (some a) e changes =
        some (GoError.cannotChangeField "ID")) ∧
    (∀ (a e changes : hetznertasks.LoadBalancer), changes.Name = none → changes.ID ≠ none →
      hetznertasks.LoadBalancer.checkChanges (some a) e changes =
        some (GoError.cannotChangeField "ID")) ∧
    (∀ (σ : Type) (err : GoError) (render : σ → σ × Option GoError) (st : σ),
      fi.deltaRunDispatch (some err) render st = (st, some err)) := by
  refine ⟨fun a e changes h => ?_, fun a e changes hn hid => ?_,
    fun σ err render st => rfl⟩
  · simp [openstacktasks.ServerGroup.checkChanges, h]
  · simp [hetznertasks.LoadBalancer.checkChanges, hn, hid]

/-- Witness for C2 at concrete tasks whose observed ID is "x" (resp. 1) and
whose desired ID is "y" (resp. 2). -/
theorem immutable_id_change_rejected_witness :
    openstacktasks.ServerGroup.checkChanges
      (some { ID := some "x", Name := some "sg", ClusterName := none, IGName := none,
              Policies := [], MaxSize := none, Lifecycle := "Sync", members := [],
              gotMemberList := false })
      { ID := some "y", Name := some "sg", ClusterName := none, IGName := none,
        Policies := [], MaxSize := none, Lifecycle := "Sync", members := [],
        gotMemberList := false }
      { ID := some "y", Name := none, ClusterName := none, IGName := none,
        Policies := [], MaxSize := none, Lifecycle := "", members := [],
        gotMemberList := false } = some (GoError.cannotChangeField "ID") ∧
    hetznertasks.LoadBalancer.checkChanges
      (some { Name := some "api", Lifecycle := "Sync", Network := some 7, ID := some 1,
              Location := "fsn1", Type' := "lb11", Services := [], Target := "role=node",
              Labels := [] })
      { Name := some "api", Lifecycle := "Sync", Network := some 7, ID := some 2,
        Location := "fsn1", Type' := "lb11", Services := [], Target := "role=node",
        Labels := [] }
      { Name := none, Lifecycle := "", Network := none, ID := some 2, Location := "",
        Type' := "", Services := [], Target := "", Labels := [] } =
      some (GoError.cannotChangeField "ID") ∧
    fi.deltaRunDispatch (some (GoError.cannotChangeField "ID"))
      (fun n : Nat => (n + 1, none)) 0 = (0, some (GoError.cannotChangeField "ID")) :=
  ⟨immutable_id_change_rejected.1 _ _ _ (by decide),
   immutable_id_change_rejected.2.1 _ _ _ (by decide) (by decide),
   immutable_id_change_rejected.2.2 Nat _ _ 0⟩

/-- C3 counterexample: `AutoscalingGroup.CheckChanges` with no observed group
(creation path) and a desired task whose Name is nil returns no error at all —
not `RequiredField("Name")` — because its required-name check runs only when
an observed group exists. -/
theorem asg_create_missing_name_not_rejected :
    awstasks.AutoscalingGroup.checkChanges none
      { Name := none, Lifecycle := "Sync", MinSize := some 1, MaxSize := some 3,
        Metrics := [], Granularity := none }
      { Name := none, Lifecycle := "", MinSize := none, MaxSize := none,
        Metrics := [], Granularity := none } = none ∧
    awstasks.AutoscalingGroup.checkChanges none
      { Name := none, Lifecycle := "Sync", MinSize := some 1, MaxSize := some 3,
        Metrics := [], Granularity := none }
      { Name := none, Lifecycle := "", MinSize := none, MaxSize := none,
        Metrics := [], Granularity := none } ≠
      some (GoError.requiredField "Name") := by
  constructor <;> decide

/-- C3 (amended): `AutoscalingGroup.CheckChanges` performs no required-field
check on the creation path (observed nil always passes) and instead returns
`RequiredField("Name")` exactly when an observed group exists and the desired
Name is nil; the Hetzner `LoadBalancer.CheckChanges` creation path returns
`RequiredField` naming the first unset attribute in the order Name, Location,
Type, Services, Target. -/
theorem required_fields_on_create_checked :
    (∀ ex changes : awstasks.AutoscalingGroup,
      awstasks.AutoscalingGroup.checkChanges none ex changes = none) ∧
    (∀ a ex changes : awstasks.AutoscalingGroup, ex.Name = none →
      awstasks.AutoscalingGroup.checkChanges (some a) ex changes =
        some (GoError.requiredField "Name")) ∧
    (∀ e changes : hetznertasks.LoadBalancer,
      (e.Name = none →
        hetznertasks.LoadBalancer.checkChanges none e changes =
          some (GoError.requiredField "Name")) ∧
      (e.Name ≠ none → e.Location = "" →
        hetznertasks.LoadBalancer.checkChanges none e changes =
          some (GoError.requiredField "Location")) ∧
      (e.Name ≠ none → e.Location ≠ "" → e.Type' = "" →
        hetznertasks.LoadBalancer.checkChanges none e changes =
          some (GoError.requiredField "Type")) ∧
      (e.Name ≠ none → e.Location ≠ "" → e.Type' ≠ "" → e.Services = [] →
        hetznertasks.LoadBalancer.checkChanges none e changes =
          some (GoError.requiredField "Services")) ∧
      (e.Name ≠ none → e.Location ≠ "" → e.Type' ≠ "" → e.Services ≠ [] → e.Target = "" →
        hetznertasks.LoadBalancer.checkChanges none e changes =
          some (GoError.requiredField "Target"))) := by
  refine ⟨fun ex changes => rfl, fun a ex changes h => ?_, fun e changes => ?_⟩
  · simp [awstasks.AutoscalingGroup.checkChanges, h]
  · refine ⟨fun h1 => ?_, fun h1 h2 => ?_, fun h1 h2 h3 => ?_,
      fun h1 h2 h3 h4 => ?_, fun h1 h2 h3 h4 h5 => ?_⟩ <;>
    simp_all [hetznertasks.LoadBalancer.checkChanges, List.length_eq_zero]

/-- Witness for C3 at concrete tasks: an observed autoscaling group with a
nil desired Name, and each Hetzner creation-path omission in turn. -/
theorem required_fields_on_create_checked_witness :
    awstasks.AutoscalingGroup.checkChanges none
      { Name := none, Lifecycle := "Sync", MinSize := none, MaxSize := none,
        Metrics := [], Granularity := none }
      { Name := none, Lifecycle := "", MinSize := none, MaxSize := none,
        Metrics := [], Granularity := none } = none ∧
    awstasks.AutoscalingGroup.checkChanges
      (some { Name := some "nodes", Lifecycle := "Sync", MinSize := some 1,
              MaxSize := some 3, Metrics := [], Granularity := none })
      { Name := none, Lifecycle := "Sync", MinSize := some 1, MaxSize := some 3,
        Metrics := [], Granularity := none }
      { Name := none, Lifecycle := "", MinSize := none, MaxSize := none,
        Metrics := [], Granularity := none } = some (GoError.requiredField "Name") ∧
    hetznertasks.LoadBalancer.checkChanges none
      { Name := none, Lifecycle := "Sync", Network := none, ID := none, Location := "",
        Type' := "", Services := [], Target := "", Labels := [] }
      { Name := none, Lifecycle := "", Network := none, ID := none, Location := "",
        Type' := "", Services := [], Target := "", Labels := [] } =
      some (GoError.requiredField "Name") ∧
    hetznertasks.LoadBalancer.checkChanges none
      { Name := some "api", Lifecycle := "Sync", Network := none, ID := none,
        Location := "", Type' := "", Services := [], Target := "", Labels := [] }
      { Name := none, Lifecycle := "", Network := none, ID := none, Location := "",
        Type' := "", Services := [], Target := "", Labels := [] } =
      some (GoError.requiredField "Location") ∧
    hetznertasks.LoadBalancer.checkChanges none
      { Name := some "api", Lifecycle := "Sync", Network := none, ID := none,
        Location := "fsn1", Type' := "", Services := [], Target := "", Labels := [] }
      { Name := none, Lifecycle := "", Network := none, ID := none, Location := "",
        Type' := "", Services := [], Target := "", Labels := [] } =
      some (GoError.requiredField "Type") ∧
    hetznertasks.LoadBalancer.checkChanges none
      { Name := some "api", Lifecycle := "Sync", Network := none, ID := none,
        Location := "fsn1", Type' := "lb11", Services := [], Target := "", Labels := [] }
      { Name := none, Lifecycle := "", Network := none, ID := none, Location := "",
        Type' := "", Services := [], Target := "", Labels := [] } =
      some (GoError.requiredField "Services") ∧
    hetznertasks.LoadBalancer.checkChanges none
      { Name := some "api", Lifecycle := "Sync", Network := none, ID := none,
        Location := "fsn1", Type' := "lb11",
        Services := [{ Protocol := "tcp", ListenerPort := some 443,
                       DestinationPort := some 443 }],
        Target := "", Labels := [] }
      { Name := none, Lifecycle := "", Network := none, ID := none, Location := "",
        Type' := "", Services := [], Target := "", Labels := [] } =
      some (GoError.requiredField "Target") :=
  ⟨required_fields_on_create_checked.1 _ _,
   required_fields_on_create_checked.2.1 _ _ _ (by decide),
   (required_fields_on_create_checked.2.2 _ _).1 (by decide),
   (required_fields_on_create_checked.2.2 _ _).2.1 (by decide) (by decide),
   (required_fields_on_create_checked.2.2 _ _).2.2.1 (by decide) (by decide) (by decide),
   (required_fields_on_create_checked.2.2 _ _).2.2.2.1 (by decide) (by decide) (by decide)
     (by decide),
   (required_fields_on_create_checked.2.2 _ _).2.2.2.2 (by decide) (by decide) (by decide)
     (by decide) (by decide)⟩

/-- C4 (code bug): for the Hetzner LoadBalancer with an observed task, when
both Services lists are non-empty and the Services delta is non-empty,
CheckChanges rejects the change but names the field "Subnets" — a field that
does not exist on this task kind — instead of the offending field Services. -/
theorem hetzner_services_change_error_names_subnets :
    hetznertasks.LoadBalancer.checkChanges
      (some { Name := some "api", Lifecycle := "Sync", Network := some 7, ID := some 1,
              Location := "fsn1", Type' := "lb11",
              Services := [{ Protocol := "tcp", ListenerPort := some 443,
                             DestinationPort := some 443 }],
              Target := "role=node", Labels := [] })
      { Name := some "api", Lifecycle := "Sync", Network := some 7, ID := some 1,
        Location := "fsn1", Type' := "lb11",
        Services := [{ Protocol := "tcp", ListenerPort := some 8443,
                       DestinationPort := some 8443 }],
        Target := "role=node", Labels := [] }
      { Name := none, Lifecycle := "", Network := none, ID := none, Location := "",
        Type' := "",
        Services := [{ Protocol := "tcp", ListenerPort := some 8443,
                       DestinationPort := some 8443 }],
        Target := "", Labels := [] } = some (GoError.cannotChangeField "Subnets") ∧
    hetznertasks.LoadBalancer.checkChanges
      (some { Name := some "api", Lifecycle := "Sync", Network := some 7, ID := some 1,
              Location := "fsn1", Type' := "lb11",
              Services := [{ Protocol := "tcp", ListenerPort := some 443,
                             DestinationPort := some 443 }],
              Target := "role=node", Labels := [] })
      { Name := some "api", Lifecycle := "Sync", Network := some 7, ID := some 1,
        Location := "fsn1", Type' := "lb11",
        Services := [{ Protocol := "tcp", ListenerPort := some 8443,
                       DestinationPort := some 8443 }],
        Target := "role=node", Labels := [] }
      { Name := none, Lifecycle := "", Network := none, ID := none, Location := "",
        Type' := "",
        Services := [{ Protocol := "tcp", ListenerPort := some 8443,
                       DestinationPort := some 8443 }],
        Target := "", Labels := [] } ≠ some (GoError.cannotChangeField "Services") := by
  constructor <;> decide

/-- C6: on the AutoscalingGroup creation path, the CreateAutoScalingGroup call
outcome is converted to the retryable `TryAgainLater` signal exactly when the
call failed with code "ValidationError" and a message containing "Invalid IAM
Instance Profile name"; every other failure becomes a fatal error for the task
wrapping the call's message. -/
theorem asg_create_retry_iff_iam_validation :
    (∀ err : GoError,
      awstasks.isTryAgainLater
        (awstasks.AutoscalingGroup.renderAWSCreateCallResult (some err)) = true ↔
      (awstasks.AWSErrorCode err = "ValidationError" ∧
        ("Invalid IAM Instance Profile name").data <:+:
          (awstasks.AWSErrorMessage err).data)) ∧
    (∀ err : GoError,
      awstasks.AWSErrorCode err = "ValidationError" →
      goStringsContains (awstasks.AWSErrorMessage err)
        "Invalid IAM Instance Profile name" = true →
      awstasks.AutoscalingGroup.renderAWSCreateCallResult (some err) =
        some (GoError.tryAgainLater "waiting for the IAM Instance Profile to be propagated")) ∧
    (∀ err : GoError,
      ¬(awstasks.AWSErrorCode err = "ValidationError" ∧
        goStringsContains (awstasks.AWSErrorMessage err)
          "Invalid IAM Instance Profile name" = true) →
      awstasks.AutoscalingGroup.renderAWSCreateCallResult (some err) =
        some (GoError.plain
          ("error creating AutoScalingGroup: " ++ awstasks.AWSErrorMessage err))) := by
  refine ⟨fun err => ?_, fun err h1 h2 => ?_, fun err h => ?_⟩
  · by_cases hc : awstasks.AWSErrorCode err = "ValidationError" ∧
        goStringsContains (awstasks.AWSErrorMessage err)
          "Invalid IAM Instance Profile name" = true
    · simp only [awstasks.AutoscalingGroup.renderAWSCreateCallResult, if_pos hc,
        awstasks.isTryAgainLater, true_iff]
      exact ⟨hc.1, (listHasInfix_iff _ _).mp hc.2⟩
    · simp only [awstasks.AutoscalingGroup.renderAWSCreateCallResult, if_neg hc,
        awstasks.isTryAgainLater, Bool.false_eq_true, false_iff]
      intro hcontra
      exact hc ⟨hcontra.1, (listHasInfix_iff _ _).mpr hcontra.2⟩
  · have hc : awstasks.AWSErrorCode err = "ValidationError" ∧
        goStringsContains (awstasks.AWSErrorMessage err)
          "Invalid IAM Instance Profile name" = true := ⟨h1, h2⟩
    simp only [awstasks.AutoscalingGroup.renderAWSCreateCallResult, if_pos hc]
  · simp [awstasks.AutoscalingGroup.renderAWSCreateCallResult, if_neg h]

/-- Witness for C6 at two concrete call failures: an IAM-propagation
validation error (retryable) and a throttling error (fatal). -/
theorem asg_create_retry_iff_iam_validation_witness :
    awstasks.AutoscalingGroup.renderAWSCreateCallResult
      (some (GoError.awsApi "ValidationError"
        "Invalid IAM Instance Profile name: nodes.example.com")) =
      some (GoError.tryAgainLater
        "waiting for the IAM Instance Profile to be propagated") ∧
    awstasks.AutoscalingGroup.renderAWSCreateCallResult
      (some (GoError.awsApi "Throttling" "Rate exceeded")) =
      some (GoError.plain
        ("error creating AutoScalingGroup: " ++
          awstasks.AWSErrorMessage (GoError.awsApi "Throttling" "Rate exceeded"))) :=
  ⟨asg_create_retry_iff_iam_validation.2.1 _ (by decide) (by decide),
   asg_create_retry_iff_iam_validation.2.2 _ (by decide)⟩

end Kops

namespace Kops

/-- Two sorted lists that are permutations of each other are equal, provided
the order is antisymmetric on the elements of the first list (key orders are
antisymmetric only where elements with equal keys are equal). -/
theorem eq_of_perm_of_sorted_of_antisymmOn {α : Type} {r : α → α → Prop} :
    ∀ {l₁ l₂ : List α}, l₁.Perm l₂ → l₁.Sorted r → l₂.Sorted r →
      (∀ x ∈ l₁, ∀ y ∈ l₁, r x y → r y x → x = y) → l₁ = l₂ := by
  intro l₁
  induction l₁ with
  | nil =>
    intro l₂ hp _ _ _
    exact hp.nil_eq
  | cons a t₁ ih =>
    intro l₂ hp hs₁ hs₂ anti
    cases l₂ with
    | nil => cases hp.eq_nil
    | cons b t₂ =>
      by_cases hab : a = b
      · subst hab
        have ht : t₁ = t₂ := by
          refine ih hp.cons_inv hs₁.of_cons hs₂.of_cons ?_
          intro x hx y hy rxy ryx
          exact anti x (List.mem_cons_of_mem a hx) y (List.mem_cons_of_mem a hy) rxy ryx
        rw [ht]
      · exfalso
        have ha : a ∈ t₂ := by
          rcases List.mem_cons.mp (hp.subset (List.mem_cons_self a t₁)) with h | h
          · exact absurd h hab
          · exact h
        have hb : b ∈ t₁ := by
          rcases List.mem_cons.mp (hp.symm.subset (List.mem_cons_self b t₂)) with h | h
          · exact absurd h.symm hab
          · exact h
        have rab : r a b := (List.sorted_cons.mp hs₁).1 b hb
        have rba : r b a := (List.sorted_cons.mp hs₂).1 a ha
        exact hab (anti a (List.mem_cons_self a t₁) b (List.mem_cons_of_mem a hb) rab rba)

end Kops

namespace Kops.awstasks

/-- Stable id-sorting of subnet lists is permutation-invariant when subnets
with equal ids are equal. -/
theorem sortSubnetsById_perm_eq (l₁ l₂ : List Subnet) (hp : l₁.Perm l₂)
    (inj : ∀ x ∈ l₂, ∀ y ∈ l₂, subnetKey x = subnetKey y → x = y) :
    sortSubnetsById l₁ = sortSubnetsById l₂ := by
  refine eq_of_perm_of_sorted_of_antisymmOn
    (((List.perm_insertionSort subnetLe l₁).trans hp).trans
      (List.perm_insertionSort subnetLe l₂).symm)
    (List.sorted_insertionSort subnetLe l₁) (List.sorted_insertionSort subnetLe l₂) ?_
  intro x hx y hy rxy ryx
  have hx' : x ∈ l₂ := hp.subset ((List.perm_insertionSort subnetLe l₁).subset hx)
  have hy' : y ∈ l₂ := hp.subset ((List.perm_insertionSort subnetLe l₁).subset hy)
  exact inj x hx' y hy' (le_antisymm rxy ryx)

/-- Stable id-sorting of security-group lists is permutation-invariant when
groups with equal ids are equal. -/
theorem sortSecurityGroupsById_perm_eq (l₁ l₂ : List SecurityGroup) (hp : l₁.Perm l₂)
    (inj : ∀ x ∈ l₂, ∀ y ∈ l₂, securityGroupKey x = securityGroupKey y → x = y) :
    sortSecurityGroupsById l₁ = sortSecurityGroupsById l₂ := by
  refine eq_of_perm_of_sorted_of_antisymmOn
    (((List.perm_insertionSort securityGroupLe l₁).trans hp).trans
      (List.perm_insertionSort securityGroupLe l₂).symm)
    (List.sorted_insertionSort securityGroupLe l₁)
    (List.sorted_insertionSort securityGroupLe l₂) ?_
  intro x hx y hy rxy ryx
  have hx' : x ∈ l₂ := hp.subset ((List.perm_insertionSort securityGroupLe l₁).subset hx)
  have hy' : y ∈ l₂ := hp.subset ((List.perm_insertionSort securityGroupLe l₁).subset hy)
  exact inj x hx' y hy' (le_antisymm rxy ryx)

/-- Sorting of string slices (`sort.Strings`) is permutation-invariant. -/
theorem sortStrings_perm_eq (l₁ l₂ : List String) (hp : l₁.Perm l₂) :
    sortStrings l₁ = sortStrings l₂ :=
  eq_of_perm_of_sorted_of_antisymmOn
    (((List.perm_insertionSort _ l₁).trans hp).trans (List.perm_insertionSort _ l₂).symm)
    (List.sorted_insertionSort _ l₁) (List.sorted_insertionSort _ l₂)
    (fun x _ y _ rxy ryx => le_antisymm rxy ryx)

end Kops.awstasks

namespace Kops

/-- C5 counterexample: `Normalize` sorts subnets stably by id only, so for a
load balancer holding two distinct subnets that share an id, reordering the
subnet list does change the normalized list — the claimed identity fails. -/
theorem normalize_reorder_spurious_change :
    (awstasks.ClassicLoadBalancer.Normalize
      { Name := some "api.example.com", Lifecycle := "Sync", LoadBalancerName := some "api",
        DNSName := none, HostedZoneId := none,
        Subnets := [{ ID := some "subnet-a", Name := some "us-east-1b" },
                    { ID := some "subnet-a", Name := some "us-east-1a" }],
        SecurityGroups := [], Listeners := [], Scheme := none, HealthCheck := none,
        AccessLog := none, ConnectionDraining := none, ConnectionSettings := none,
        CrossZoneLoadBalancing := none, SSLCertificateID := "", Tags := [],
        ForAPIServer := false, Shared := none }).Subnets ≠
    (awstasks.ClassicLoadBalancer.Normalize
      { Name := some "api.example.com", Lifecycle := "Sync", LoadBalancerName := some "api",
        DNSName := none, HostedZoneId := none,
        Subnets := [{ ID := some "subnet-a", Name := some "us-east-1a" },
                    { ID := some "subnet-a", Name := some "us-east-1b" }],
        SecurityGroups := [], Listeners := [], Scheme := none, HealthCheck := none,
        AccessLog := none, ConnectionDraining := none, ConnectionSettings := none,
        CrossZoneLoadBalancing := none, SSLCertificateID := "", Tags := [],
        ForAPIServer := false, Shared := none }).Subnets ∧
    List.Perm
      [({ ID := some "subnet-a", Name := some "us-east-1b" } : awstasks.Subnet),
       { ID := some "subnet-a", Name := some "us-east-1a" }]
      [({ ID := some "subnet-a", Name := some "us-east-1a" } : awstasks.Subnet),
       { ID := some "subnet-a", Name := some "us-east-1b" }] := by
  refine ⟨?_, by decide⟩
  show awstasks.sortSubnetsById
      [{ ID := some "subnet-a", Name := some "us-east-1b" },
       { ID := some "subnet-a", Name := some "us-east-1a" }] ≠
    awstasks.sortSubnetsById
      [{ ID := some "subnet-a", Name := some "us-east-1a" },
       { ID := some "subnet-a", Name := some "us-east-1b" }]
  have h1 : awstasks.sortSubnetsById
      [{ ID := some "subnet-a", Name := some "us-east-1b" },
       ({ ID := some "subnet-a", Name := some "us-east-1a" } : awstasks.Subnet)] =
      [{ ID := some "subnet-a", Name := some "us-east-1b" },
       { ID := some "subnet-a", Name := some "us-east-1a" }] := by
    simp only [awstasks.sortSubnetsById, List.insertionSort, List.orderedInsert,
      awstasks.subnetLe, awstasks.subnetKey, StringValue]
    rw [if_pos (le_of_eq (rfl : ("subnet-a" : String) = "subnet-a"))]
  have h2 : awstasks.sortSubnetsById
      [{ ID := some "subnet-a", Name := some "us-east-1a" },
       ({ ID := some "subnet-a", Name := some "us-east-1b" } : awstasks.Subnet)] =
      [{ ID := some "subnet-a", Name := some "us-east-1a" },
       { ID := some "subnet-a", Name := some "us-east-1b" }] := by
    simp only [awstasks.sortSubnetsById, List.insertionSort, List.orderedInsert,
      awstasks.subnetLe, awstasks.subnetKey, StringValue]
    rw [if_pos (le_of_eq (rfl : ("subnet-a" : String) = "subnet-a"))]
  rw [h1, h2]
  decide

/-- C5 (amended): reordering alone never produces a change provided elements
sharing a sort key are identical — for every ClassicLoadBalancer whose subnet
ids (resp. security-group ids) are duplicate-free in that sense, `Normalize`
maps every permutation of the subnet and security-group lists to the same
normalized task; and `AutoscalingGroup.normalize` sorts `Metrics`, so metric
lists differing only in order normalize to equal tasks unconditionally. -/
theorem normalize_permutation_invariant :
    (∀ (e : awstasks.ClassicLoadBalancer) (subnets' : List awstasks.Subnet)
        (securityGroups' : List awstasks.SecurityGroup),
      subnets'.Perm e.Subnets → securityGroups'.Perm e.SecurityGroups →
      (∀ x ∈ e.Subnets, ∀ y ∈ e.Subnets,
        awstasks.subnetKey x = awstasks.subnetKey y → x = y) →
      (∀ x ∈ e.SecurityGroups, ∀ y ∈ e.SecurityGroups,
        awstasks.securityGroupKey x = awstasks.securityGroupKey y → x = y) →
      awstasks.ClassicLoadBalancer.Normalize
        { e with Subnets := subnets', SecurityGroups := securityGroups' } =
        awstasks.ClassicLoadBalancer.Normalize e) ∧
    (∀ (g : awstasks.AutoscalingGroup) (metrics' : List String), metrics'.Perm g.Metrics →
      awstasks.AutoscalingGroup.normalize { g with Metrics := metrics' } =
        awstasks.AutoscalingGroup.normalize g) := by
  constructor
  · intro e subnets' securityGroups' hps hpg injs injg
    simp only [awstasks.ClassicLoadBalancer.Normalize]
    rw [awstasks.sortSubnetsById_perm_eq subnets' e.Subnets hps injs,
      awstasks.sortSecurityGroupsById_perm_eq securityGroups' e.SecurityGroups hpg injg]
  · intro g metrics' hp
    simp only [awstasks.AutoscalingGroup.normalize]
    rw [awstasks.sortStrings_perm_eq metrics' g.Metrics hp]

/-- Witness for C5 at a concrete load balancer with two distinct-id subnets
and security groups given in reversed order, and a concrete autoscaling group
with reversed metrics. -/
theorem normalize_permutation_invariant_witness :
    awstasks.ClassicLoadBalancer.Normalize
      { Name := some "api.example.com", Lifecycle := "Sync", LoadBalancerName := some "api",
        DNSName := none, HostedZoneId := none,
        Subnets := [{ ID := some "subnet-b", Name := some "us-east-1b" },
                    { ID := some "subnet-a", Name := some "us-east-1a" }],
        SecurityGroups := [{ ID := some "sg-2", Name := some "nodes" },
                           { ID := some "sg-1", Name := some "masters" }],
        Listeners := [], Scheme := none, HealthCheck := none, AccessLog := none,
        ConnectionDraining := none, ConnectionSettings := none,
        CrossZoneLoadBalancing := none, SSLCertificateID := "", Tags := [],
        ForAPIServer := false, Shared := none } =
    awstasks.ClassicLoadBalancer.Normalize
      { Name := some "api.example.com", Lifecycle := "Sync", LoadBalancerName := some "api",
        DNSName := none, HostedZoneId := none,
        Subnets := [{ ID := some "subnet-a", Name := some "us-east-1a" },
                    { ID := some "subnet-b", Name := some "us-east-1b" }],
        SecurityGroups := [{ ID := some "sg-1", Name := some "masters" },
                           { ID := some "sg-2", Name := some "nodes" }],
        Listeners := [], Scheme := none, HealthCheck := none, AccessLog := none,
        ConnectionDraining := none, ConnectionSettings := none,
        CrossZoneLoadBalancing := none, SSLCertificateID := "", Tags := [],
        ForAPIServer := false, Shared := none } ∧
    awstasks.AutoscalingGroup.normalize
      { Name := some "nodes", Lifecycle := "Sync", MinSize := some 1, MaxSize := some 3,
        Metrics := ["GroupMinSize", "GroupDesiredCapacity"], Granularity := some "1Minute" } =
    awstasks.AutoscalingGroup.normalize
      { Name := some "nodes", Lifecycle := "Sync", MinSize := some 1, MaxSize := some 3,
        Metrics := ["GroupDesiredCapacity", "GroupMinSize"], Granularity := some "1Minute" } :=
  ⟨normalize_permutation_invariant.1
      { Name := some "api.example.com", Lifecycle := "Sync", LoadBalancerName := some "api",
        DNSName := none, HostedZoneId := none,
        Subnets := [{ ID := some "subnet-a", Name := some "us-east-1a" },
                    { ID := some "subnet-b", Name := some "us-east-1b" }],
        SecurityGroups := [{ ID := some "sg-1", Name := some "masters" },
                           { ID := some "sg-2", Name := some "nodes" }],
        Listeners := [], Scheme := none, HealthCheck := none, AccessLog := none,
        ConnectionDraining := none, ConnectionSettings := none,
        CrossZoneLoadBalancing := none, SSLCertificateID := "", Tags := [],
        ForAPIServer := false, Shared := none }
      [{ ID := some "subnet-b", Name := some "us-east-1b" },
       { ID := some "subnet-a", Name := some "us-east-1a" }]
      [{ ID := some "sg-2", Name := some "nodes" }, { ID := some "sg-1", Name := some "masters" }]
      (by decide) (by decide) (by decide) (by decide),
   normalize_permutation_invariant.2
     { Name := some "nodes", Lifecycle := "Sync", MinSize := some 1, MaxSize := some 3,
       Metrics := ["GroupDesiredCapacity", "GroupMinSize"], Granularity := some "1Minute" }
     ["GroupMinSize", "GroupDesiredCapacity"] (by decide)⟩

end Kops

namespace Kops.hetznertasks

theorem findFirstByName_eq_none (name : String) (loadbalancers : List HCloudLoadBalancer)
    (h : ∀ lb ∈ loadbalancers, lb.Name ≠ name) :
    findFirstByName name loadbalancers = none := by
  induction loadbalancers with
  | nil => rfl
  | cons lb rest ih =>
    simp only [findFirstByName]
    rw [if_neg (h lb (List.mem_cons_self lb rest))]
    exact ih fun x hx => h x (List.mem_cons_of_mem lb hx)

end Kops.hetznertasks

namespace Kops.openstacktasks

theorem serverGroupFindLoop_no_match (s : ServerGroup) (name : String)
    (serverGroups : List OSServerGroup) (acc : Option ServerGroup)
    (h : ∀ g ∈ serverGroups, g.Name ≠ name) :
    serverGroupFindLoop s name serverGroups acc = .ok acc := by
  induction serverGroups generalizing acc with
  | nil => rfl
  | cons g rest ih =>
    simp only [serverGroupFindLoop]
    rw [if_neg (h g (List.mem_cons_self g rest))]
    exact ih acc fun x hx => h x (List.mem_cons_of_mem g hx)

theorem serverGroupFindLoop_second_match (s : ServerGroup) (name : String)
    (serverGroups : List OSServerGroup) (x : ServerGroup)
    (h : ∃ g ∈ serverGroups, g.Name = name) :
    serverGroupFindLoop s name serverGroups (some x) =
      .error (.plain ("Found multiple server groups with name " ++ name)) := by
  induction serverGroups with
  | nil => obtain ⟨g, hg, _⟩ := h; cases hg
  | cons g rest ih =>
    simp only [serverGroupFindLoop]
    by_cases hg : g.Name = name
    · rw [if_pos hg]
    · rw [if_neg hg]
      refine ih ?_
      obtain ⟨g', hg', hname⟩ := h
      rcases List.mem_cons.mp hg' with rfl | hmem
      · exact absurd hname hg
      · exact ⟨g', hmem, hname⟩

theorem serverGroupFindLoop_multi_match (s : ServerGroup) (name : String)
    (serverGroups : List OSServerGroup)
    (h : 2 ≤ (serverGroups.filter fun g => g.Name = name).length) :
    serverGroupFindLoop s name serverGroups none =
      .error (.plain ("Found multiple server groups with name " ++ name)) := by
  induction serverGroups with
  | nil => simp at h
  | cons g rest ih =>
    simp only [serverGroupFindLoop]
    by_cases hg : g.Name = name
    · rw [if_pos hg]
      have hlen : 1 ≤ (rest.filter fun g => g.Name = name).length := by
        have : (List.filter (fun g => decide (g.Name = name)) (g :: rest)).length =
            (rest.filter fun g => g.Name = name).length + 1 := by
          simp [List.filter_cons, hg]
        omega
      have hne : (rest.filter fun g => g.Name = name) ≠ [] := by
        intro hnil
        rw [hnil] at hlen
        simp at hlen
      obtain ⟨g', hg'⟩ := List.exists_mem_of_ne_nil _ hne
      have := List.mem_filter.mp hg'
      exact serverGroupFindLoop_second_match s name rest _
        ⟨g', this.1, of_decide_eq_true this.2⟩
    · rw [if_neg hg]
      refine ih ?_
      have : (List.filter (fun g => decide (g.Name = name)) (g :: rest)).length =
          (rest.filter fun g => g.Name = name).length := by
        simp [List.filter_cons, hg]
      omega

end Kops.openstacktasks

namespace Kops

/-- C7: Find is pure observation on the absent path — when no listed resource
matches the task's name, the Hetzner `LoadBalancer.Find` and the OpenStack
`ServerGroup.Find` return an absent observed value and no error, and leave the
desired task value unchanged. -/
theorem find_absent_observes_nothing :
    (∀ (loadbalancers : List hetznertasks.HCloudLoadBalancer)
        (v : hetznertasks.LoadBalancer),
      (∀ lb ∈ loadbalancers, lb.Name ≠ StringValue v.Name) →
      hetznertasks.LoadBalancer.find loadbalancers v = (none, none, v)) ∧
    (∀ (serverGroups : List openstacktasks.OSServerGroup)
        (s : openstacktasks.ServerGroup),
      (∀ g ∈ serverGroups, some g.Name ≠ s.Name) →
      openstacktasks.ServerGroup.find serverGroups s = (none, none, s)) := by
  constructor
  · intro loadbalancers v h
    simp only [hetznertasks.LoadBalancer.find,
      hetznertasks.findFirstByName_eq_none (StringValue v.Name) loadbalancers h]
  · intro serverGroups s h
    match hname : s.Name with
    | none => simp only [openstacktasks.ServerGroup.find, hname]
    | some name =>
      have hno : ∀ g ∈ serverGroups, g.Name ≠ name := by
        intro g hg heq
        exact h g hg (by rw [heq, hname])
      simp only [openstacktasks.ServerGroup.find, hname,
        openstacktasks.serverGroupFindLoop_no_match s name serverGroups none hno]

/-- Witness for C7 at a concrete Hetzner load balancer and server group
against a cloud listing that holds one resource with a different name. -/
theorem find_absent_observes_nothing_witness :
    hetznertasks.LoadBalancer.find
      [{ Name := "other", ID := 9, Location := some "fsn1", LoadBalancerType := some "lb11",
         Services := [], Targets := [], Labels := [] }]
      { Name := some "api", Lifecycle := "Sync", Network := some 7, ID := none,
        Location := "fsn1", Type' := "lb11", Services := [], Target := "role=node",
        Labels := [] } =
      (none, none,
       { Name := some "api", Lifecycle := "Sync", Network := some 7, ID := none,
         Location := "fsn1", Type' := "lb11", Services := [], Target := "role=node",
         Labels := [] }) ∧
    openstacktasks.ServerGroup.find
      [{ Name := "other", ID := "id-1", Policies := ["anti-affinity"], Members := [] }]
      { ID := none, Name := some "master-group", ClusterName := some "c", IGName := some "m",
        Policies := [], MaxSize := some 3, Lifecycle := "Sync", members := [],
        gotMemberList := false } =
      (none, none,
       { ID := none, Name := some "master-group", ClusterName := some "c",
         IGName := some "m", Policies := [], MaxSize := some 3, Lifecycle := "Sync",
         members := [], gotMemberList := false }) :=
  ⟨find_absent_observes_nothing.1 _ _ (by decide),
   find_absent_observes_nothing.2 _ _ (by decide)⟩

end Kops

namespace Kops.openstacktasks

theorem runMemberOps_append (xs ys : List MemberOp) (s : ServerGroup) :
    runMemberOps (xs ++ ys) s =
      match runMemberOps xs s with
      | none => none
      | some s' => runMemberOps ys s' := by
  induction xs generalizing s with
  | nil => rfl
  | cons op rest ih =>
    cases op with
    | add m =>
      simp only [List.cons_append, runMemberOps]
      cases s.addNewMember m with
      | none => rfl
      | some s' => exact ih s'
    | getList =>
      simp only [List.cons_append, runMemberOps]
      exact ih _

theorem runMemberOps_frozen_aux (ops : List MemberOp) :
    ∀ s s' : ServerGroup, s.gotMemberList = true → runMemberOps ops s = some s' →
      s'.members = s.members ∧ s'.gotMemberList = true := by
  induction ops with
  | nil =>
    intro s s' _ hrun
    cases hrun
    exact ⟨rfl, by assumption⟩
  | cons op rest ih =>
    intro s s' h hrun
    cases op with
    | add m =>
      simp [runMemberOps, ServerGroup.addNewMember, h] at hrun
    | getList =>
      simp only [runMemberOps, ServerGroup.getMembers] at hrun
      have h' := ih { s with gotMemberList := true } s' rfl hrun
      exact ⟨h'.1, h'.2⟩

theorem add_after_finalize_faults (mid : List MemberOp) (post : List MemberOp) (m : String) :
    ∀ s : ServerGroup, s.gotMemberList = true →
      runMemberOps (mid ++ MemberOp.add m :: post) s = none := by
  induction mid with
  | nil =>
    intro s h
    simp [runMemberOps, ServerGroup.addNewMember, h]
  | cons op rest ih =>
    intro s h
    cases op with
    | add m' =>
      simp [runMemberOps, ServerGroup.addNewMember, h]
    | getList =>
      simp only [List.cons_append, runMemberOps]
      exact ih _ rfl

end Kops.openstacktasks

namespace Kops

/-- C8: the ServerGroup member list is final once read — every interleaving of
`AddNewMember` and `GetMembers` calls that performs an `AddNewMember` after
some `GetMembers` has returned faults (the process aborts in `AddNewMember`
instead of appending), and every fault-free execution started after
finalization leaves the member list unchanged. -/
theorem servergroup_member_list_final :
    (∀ (pre mid post : List openstacktasks.MemberOp) (m : String)
        (s : openstacktasks.ServerGroup),
      openstacktasks.runMemberOps
        (pre ++ openstacktasks.MemberOp.getList :: (mid ++ openstacktasks.MemberOp.add m :: post))
        s = none) ∧
    (∀ (ops : List openstacktasks.MemberOp) (s s' : openstacktasks.ServerGroup),
      s.gotMemberList = true → openstacktasks.runMemberOps ops s = some s' →
      s'.members = s.members) := by
  constructor
  · intro pre mid post m s
    rw [openstacktasks.runMemberOps_append]
    cases openstacktasks.runMemberOps pre s with
    | none => rfl
    | some s₁ =>
      simp only [openstacktasks.runMemberOps, openstacktasks.ServerGroup.getMembers]
      exact openstacktasks.add_after_finalize_faults mid post m _ rfl
  · intro ops s s' h hrun
    exact (openstacktasks.runMemberOps_frozen_aux ops s s' h hrun).1

/-- Witness for C8 at a concrete server group: a get-then-add interleaving
faults, and a fault-free run after finalization returns the frozen members. -/
theorem servergroup_member_list_final_witness :
    openstacktasks.runMemberOps
      [openstacktasks.MemberOp.getList, openstacktasks.MemberOp.add "i-1"]
      { ID := none, Name := some "sg", ClusterName := none, IGName := none, Policies := [],
        MaxSize := none, Lifecycle := "Sync", members := ["i-0"],
        gotMemberList := false } = none ∧
    (["i-0"] : List String) = ["i-0"] :=
  ⟨servergroup_member_list_final.1 [] [] [] "i-1" _,
   servergroup_member_list_final.2 [openstacktasks.MemberOp.getList]
     { ID := none, Name := some "sg", ClusterName := none, IGName := none, Policies := [],
       MaxSize := none, Lifecycle := "Sync", members := ["i-0"], gotMemberList := true }
     { ID := none, Name := some "sg", ClusterName := none, IGName := none, Policies := [],
       MaxSize := none, Lifecycle := "Sync", members := ["i-0"], gotMemberList := true }
     rfl rfl⟩

end Kops

namespace Kops

/-- C9: when more than one backing resource matches the lookup key, the lookup
returns an error rather than arbitrarily choosing one — `ServerGroup.Find`
with two listed groups of the desired name, `findAutoscalingGroup` with
multiple non-deleting matches, and `findLoadBalancerByLoadBalancerName` with
multiple matching ELBs each return a nil observed value and an error. -/
theorem find_multiple_matches_error :
    (∀ (serverGroups : List openstacktasks.OSServerGroup)
        (s : openstacktasks.ServerGroup) (name : String),
      s.Name = some name →
      2 ≤ (serverGroups.filter fun g => g.Name = name).length →
      openstacktasks.ServerGroup.find serverGroups s =
        (none, some (.plain ("Found multiple server groups with name " ++ name)), s)) ∧
    (∀ (groups : List awstasks.AwsAsg) (name : String),
      2 ≤ (groups.filter fun g =>
        g.Status = none ∧ g.AutoScalingGroupName = name).length →
      awstasks.findAutoscalingGroup groups name =
        (none, some (.plain ("found multiple AutoscalingGroups with name: " ++ name)))) ∧
    (∀ (lbs : List awstasks.ElbDescription) (loadBalancerName : String),
      2 ≤ (lbs.filter fun lb => lb.LoadBalancerName = loadBalancerName).length →
      awstasks.findLoadBalancerByLoadBalancerName (.ok lbs) loadBalancerName =
        (none, some (.plain ("Found multiple ELBs with name " ++ loadBalancerName)))) := by
  refine ⟨fun serverGroups s name hname h => ?_, fun groups name h => ?_,
    fun lbs loadBalancerName h => ?_⟩
  · simp only [openstacktasks.ServerGroup.find, hname,
      openstacktasks.serverGroupFindLoop_multi_match s name serverGroups h]
  · simp only [awstasks.findAutoscalingGroup]
    generalize hf : List.filter
      (fun g => decide (g.Status = none ∧ g.AutoScalingGroupName = name)) groups =
      found at h ⊢
    match found, h with
    | g₁ :: g₂ :: rest, _ => rfl
  · simp only [awstasks.findLoadBalancerByLoadBalancerName, awstasks.describeLoadBalancers]
    generalize hf : List.filter
      (fun lb => decide (lb.LoadBalancerName = loadBalancerName)) lbs = found at h ⊢
    match found, h with
    | lb₁ :: lb₂ :: rest, _ => rfl

/-- Witness for C9 at concrete listings each holding two resources with the
sought name. -/
theorem find_multiple_matches_error_witness :
    openstacktasks.ServerGroup.find
      [{ Name := "master-group", ID := "id-1", Policies := [], Members := [] },
       { Name := "master-group", ID := "id-2", Policies := [], Members := [] }]
      { ID := none, Name := some "master-group", ClusterName := none, IGName := none,
        Policies := [], MaxSize := none, Lifecycle := "Sync", members := [],
        gotMemberList := false } =
      (none, some (.plain ("Found multiple server groups with name " ++ "master-group")),
       { ID := none, Name := some "master-group", ClusterName := none, IGName := none,
         Policies := [], MaxSize := none, Lifecycle := "Sync", members := [],
         gotMemberList := false }) ∧
    awstasks.findAutoscalingGroup
      [{ AutoScalingGroupName := "nodes", Status := none },
       { AutoScalingGroupName := "nodes", Status := none }] "nodes" =
      (none, some (.plain ("found multiple AutoscalingGroups with name: " ++ "nodes"))) ∧
    awstasks.findLoadBalancerByLoadBalancerName
      (.ok [{ LoadBalancerName := "api-elb", DNSName := "a.example.com",
              CanonicalHostedZoneNameID := "Z1" },
            { LoadBalancerName := "api-elb", DNSName := "b.example.com",
              CanonicalHostedZoneNameID := "Z2" }]) "api-elb" =
      (none, some (.plain ("Found multiple ELBs with name " ++ "api-elb"))) :=
  ⟨find_multiple_matches_error.1 _ _ "master-group" rfl (by decide),
   find_multiple_matches_error.2.1 _ "nodes" (by decide),
   find_multiple_matches_error.2.2 _ "api-elb" (by decide)⟩

/-- C10: a shared ClassicLoadBalancer (an external load balancer the engine
does not own) renders as a no-op on every target — `ShouldCreate` answers
false, and the AWS, Terraform and CloudFormation renderers return immediately
with no error, no issued cloud call and no emitted resource block. -/
theorem shared_clb_render_noop :
    ∀ (requeryPages : Except GoError (List awstasks.ElbDescription))
      (cloudTags : List (String × String)) (a : Option awstasks.ClassicLoadBalancer)
      (e changes : awstasks.ClassicLoadBalancer) (calls : List awstasks.AwsElbCall)
      (tfDoc : List (String × String × awstasks.TerraformLoadBalancer))
      (cfnDoc : List (String × String × awstasks.CfnClassicLoadBalancer)),
      BoolValue e.Shared = true →
      awstasks.ClassicLoadBalancer.shouldCreate a e changes = (false, none) ∧
      awstasks.ClassicLoadBalancer.renderAWS requeryPages a e changes calls =
        (calls, none) ∧
      awstasks.ClassicLoadBalancer.renderTerraform cloudTags a e changes tfDoc =
        (tfDoc, none) ∧
      awstasks.ClassicLoadBalancer.renderCloudformation cloudTags a e changes cfnDoc =
        (cfnDoc, none) := by
  intro requeryPages cloudTags a e changes calls tfDoc cfnDoc h
  refine ⟨?_, ?_, ?_, ?_⟩
  · simp [awstasks.ClassicLoadBalancer.shouldCreate, h]
  · simp [awstasks.ClassicLoadBalancer.renderAWS, h]
  · simp [awstasks.ClassicLoadBalancer.renderTerraform, h]
  · simp [awstasks.ClassicLoadBalancer.renderCloudformation, h]

/-- Witness for C10 at a concrete shared load balancer with non-empty
listener, subnet and tag attributes, against an observed task, a non-empty
call log and non-empty documents. -/
theorem shared_clb_render_noop_witness :
    awstasks.ClassicLoadBalancer.shouldCreate none
      { Name := some "api.example.com", Lifecycle := "Sync",
        LoadBalancerName := some "api-elb", DNSName := none, HostedZoneId := none,
        Subnets := [{ ID := some "subnet-a", Name := some "us-east-1a" }],
        SecurityGroups := [{ ID := some "sg-1", Name := some "api-elb-sg" }],
        Listeners := [("443", { InstancePort := 443, SSLCertificateID := "" })],
        Scheme := none, HealthCheck := none, AccessLog := none,
        ConnectionDraining := none, ConnectionSettings := none,
        CrossZoneLoadBalancing := none, SSLCertificateID := "",
        Tags := [("Name", "api.example.com")], ForAPIServer := true,
        Shared := some true }
      { Name := some "api.example.com", Lifecycle := "Sync",
        LoadBalancerName := some "api-elb", DNSName := none, HostedZoneId := none,
        Subnets := [], SecurityGroups := [], Listeners := [], Scheme := none,
        HealthCheck := none, AccessLog := none, ConnectionDraining := none,
        ConnectionSettings := none, CrossZoneLoadBalancing := none,
        SSLCertificateID := "", Tags := [], ForAPIServer := true,
        Shared := some true } = (false, none) ∧
    awstasks.ClassicLoadBalancer.renderAWS (.ok []) none
      { Name := some "api.example.com", Lifecycle := "Sync",
        LoadBalancerName := some "api-elb", DNSName := none, HostedZoneId := none,
        Subnets := [{ ID := some "subnet-a", Name := some "us-east-1a" }],
        SecurityGroups := [{ ID := some "sg-1", Name := some "api-elb-sg" }],
        Listeners := [("443", { InstancePort := 443, SSLCertificateID := "" })],
        Scheme := none, HealthCheck := none, AccessLog := none,
        ConnectionDraining := none, ConnectionSettings := none,
        CrossZoneLoadBalancing := none, SSLCertificateID := "",
        Tags := [("Name", "api.example.com")], ForAPIServer := true,
        Shared := some true }
      { Name := some "api.example.com", Lifecycle := "Sync",
        LoadBalancerName := some "api-elb", DNSName := none, HostedZoneId := none,
        Subnets := [], SecurityGroups := [], Listeners := [], Scheme := none,
        HealthCheck := none, AccessLog := none, ConnectionDraining := none,
        ConnectionSettings := none, CrossZoneLoadBalancing := none,
        SSLCertificateID := "", Tags := [], ForAPIServer := true,
        Shared := some true }
      [awstasks.AwsElbCall.addELBTags "other-elb" []] =
      ([awstasks.AwsElbCall.addELBTags "other-elb" []], none) ∧
    awstasks.ClassicLoadBalancer.renderTerraform [("KubernetesCluster", "example.com")] none
      { Name := some "api.example.com", Lifecycle := "Sync",
        LoadBalancerName := some "api-elb", DNSName := none, HostedZoneId := none,
        Subnets := [{ ID := some "subnet-a", Name := some "us-east-1a" }],
        SecurityGroups := [{ ID := some "sg-1", Name := some "api-elb-sg" }],
        Listeners := [("443", { InstancePort := 443, SSLCertificateID := "" })],
        Scheme := none, HealthCheck := none, AccessLog := none,
        ConnectionDraining := none, ConnectionSettings := none,
        CrossZoneLoadBalancing := none, SSLCertificateID := "",
        Tags := [("Name", "api.example.com")], ForAPIServer := true,
        Shared := some true }
      { Name := some "api.example.com", Lifecycle := "Sync",
        LoadBalancerName := some "api-elb", DNSName := none, HostedZoneId := none,
        Subnets := [], SecurityGroups := [], Listeners := [], Scheme := none,
        HealthCheck := none, AccessLog := none, ConnectionDraining := none,
        ConnectionSettings := none, CrossZoneLoadBalancing := none,
        SSLCertificateID := "", Tags := [], ForAPIServer := true,
        Shared := some true } [] = ([], none) ∧
    awstasks.ClassicLoadBalancer.renderCloudformation
      [("KubernetesCluster", "example.com")] none
      { Name := some "api.example.com", Lifecycle := "Sync",
        LoadBalancerName := some "api-elb", DNSName := none, HostedZoneId := none,
        Subnets := [{ ID := some "subnet-a", Name := some "us-east-1a" }],
        SecurityGroups := [{ ID := some "sg-1", Name := some "api-elb-sg" }],
        Listeners := [("443", { InstancePort := 443, SSLCertificateID := "" })],
        Scheme := none, HealthCheck := none, AccessLog := none,
        ConnectionDraining := none, ConnectionSettings := none,
        CrossZoneLoadBalancing := none, SSLCertificateID := "",
        Tags := [("Name", "api.example.com")], ForAPIServer := true,
        Shared := some true }
      { Name := some "api.example.com", Lifecycle := "Sync",
        LoadBalancerName := some "api-elb", DNSName := none, HostedZoneId := none,
        Subnets := [], SecurityGroups := [], Listeners := [], Scheme := none,
        HealthCheck := none, AccessLog := none, ConnectionDraining := none,
        ConnectionSettings := none, CrossZoneLoadBalancing := none,
        SSLCertificateID := "", Tags := [], ForAPIServer := true,
        Shared := some true } [] = ([], none) := by
  have h := shared_clb_render_noop (.ok []) [("KubernetesCluster", "example.com")] none
    { Name := some "api.example.com", Lifecycle := "Sync",
      LoadBalancerName := some "api-elb", DNSName := none, HostedZoneId := none,
      Subnets := [{ ID := some "subnet-a", Name := some "us-east-1a" }],
      SecurityGroups := [{ ID := some "sg-1", Name := some "api-elb-sg" }],
      Listeners := [("443", { InstancePort := 443, SSLCertificateID := "" })],
      Scheme := none, HealthCheck := none, AccessLog := none,
      ConnectionDraining := none, ConnectionSettings := none,
      CrossZoneLoadBalancing := none, SSLCertificateID := "",
      Tags := [("Name", "api.example.com")], ForAPIServer := true,
      Shared := some true }
    { Name := some "api.example.com", Lifecycle := "Sync",
      LoadBalancerName := some "api-elb", DNSName := none, HostedZoneId := none,
      Subnets := [], SecurityGroups := [], Listeners := [], Scheme := none,
      HealthCheck := none, AccessLog := none, ConnectionDraining := none,
      ConnectionSettings := none, CrossZoneLoadBalancing := none,
      SSLCertificateID := "", Tags := [], ForAPIServer := true,
      Shared := some true }
    [awstasks.AwsElbCall.addELBTags "other-elb" []] [] [] rfl
  exact ⟨h.1, h.2.1, h.2.2.1, h.2.2.2⟩

end Kops
